import Mathlib

/-!
# Verification of the ScriptBusquedaTFM core against its specification

This file shallowly embeds the parts of the repository that the checked
claims are about:

* `src/utils/Methods.py` — title/URL normalisation, SimHash fingerprints,
  token signatures, Jaccard similarity;
* `src/engines/SearchEngineNews.py` — the fuzzy dedup engine
  (`add_or_update_result`, `get_state_snapshot`, `load_state_snapshot`);
* `src/state/StateManager.py` — checkpoint init/save/patch/load;
* `src/app/main_app.py` — the "Retomar Búsqueda" (resume) branch;
* `src/filters/FilterEngine.py` — the per-item filter cascade;
* `src/filters/FilterIncident.py` — the incident heuristic `classify`.

Modelling conventions:

* Python `str` is modelled by `String` restricted to ASCII text; the NFKD
  diacritic-stripping steps are the identity on ASCII and are modelled as
  such.  All concrete inputs used in theorems are ASCII.
* Machine integers are `Nat` with explicit `% 2^64` where overflow matters.
* Python `float` arithmetic (Jaccard ratios, candidate scores) is modelled
  exactly with `Rat`; IEEE-754 rounding is not modelled, which can only
  matter within one ulp of the fixed thresholds and never does for the
  inputs appearing below.
* Python `dict` is modelled by an insertion-ordered association list whose
  assignment updates in place or appends, like CPython dicts.
* `hashlib.sha1(...)` digests are used by the code only as opaque keys
  (`idx_by_title_sha`, `_hash12`); they are modelled as injective encodings
  of their input (collisions of the real hash are assumed absent).
  `hashlib.blake2b(digest_size=8)`, whose 64-bit value feeds Hamming
  distances, is implemented bit-exactly below and checked against
  reference digests.
-/

set_option maxRecDepth 20000

/-! ## Python-style string primitives (ASCII fragment) -/

/-- Characters Python's `str.strip()` and `\s` treat as whitespace. -/
def pyIsSpace (c : Char) : Bool :=
  c = ' ' || c = '\t' || c = '\n' || c = '\r' || c = Char.ofNat 11 || c = Char.ofNat 12

/-- ASCII lower-casing, as `str.lower()` on ASCII text. -/
def pyLowerChar (c : Char) : Char :=
  if 'A' ≤ c && c ≤ 'Z' then Char.ofNat (c.toNat + 32) else c

def pyLower (l : List Char) : List Char := l.map pyLowerChar

def stripLeft (l : List Char) : List Char := l.dropWhile pyIsSpace

def stripRight (l : List Char) : List Char := (l.reverse.dropWhile pyIsSpace).reverse

/-- `str.strip()`. -/
def pyStrip (l : List Char) : List Char := stripLeft (stripRight l)

def isDigitChar (c : Char) : Bool := '0' ≤ c && c ≤ '9'

def isLowerAlnum (c : Char) : Bool := ('a' ≤ c && c ≤ 'z') || isDigitChar c

/-- Regex word character `\w` (ASCII): letters, digits, underscore. -/
def isWordChar (c : Char) : Bool :=
  ('a' ≤ c && c ≤ 'z') || ('A' ≤ c && c ≤ 'Z') || isDigitChar c || c = '_'

/-- Auxiliary for `collapseWS`: the Bool records whether the previous kept
character position was inside a whitespace run. -/
def collapseWSAux : Bool → List Char → List Char
  | _, [] => []
  | prevSpace, c :: rest =>
    if pyIsSpace c then
      if prevSpace then collapseWSAux true rest
      else ' ' :: collapseWSAux true rest
    else c :: collapseWSAux false rest

/-- `re.sub(r"\s+", " ", t)`: every maximal whitespace run becomes one space. -/
def collapseWS (l : List Char) : List Char := collapseWSAux false l

/-- Split on whitespace runs, dropping empty pieces — Python `str.split()`. -/
def pySplitWSAux : List Char → List Char → List (List Char)
  | acc, [] => if acc.isEmpty then [] else [acc.reverse]
  | acc, c :: rest =>
    if pyIsSpace c then
      if acc.isEmpty then pySplitWSAux [] rest
      else acc.reverse :: pySplitWSAux [] rest
    else pySplitWSAux (c :: acc) rest

def pySplitWS (l : List Char) : List (List Char) := pySplitWSAux [] l

/-- Split a list on a separator character (Python `str.split(sep)`):
empty pieces are kept. -/
def splitOnChar (sep : Char) : List Char → List (List Char)
  | [] => [[]]
  | c :: rest =>
    let r := splitOnChar sep rest
    if c = sep then [] :: r
    else
      match r with
      | [] => [[c]]
      | p :: ps => (c :: p) :: ps

/-- All-digit non-empty chunk to a number. -/
def chunkToNat? (l : List Char) : Option Nat :=
  if l.isEmpty || !(l.all isDigitChar) then none
  else some (l.foldl (fun acc c => acc * 10 + (c.toNat - 48)) 0)

def strChars (s : String) : List Char := s.data

def charsToStr (l : List Char) : String := String.mk l

/-- Insertion-ordered association list lookup — CPython `dict` access. -/
def alFind? {κ α : Type} [DecidableEq κ] : List (κ × α) → κ → Option α
  | [], _ => none
  | (k, v) :: rest, key => if k = key then some v else alFind? rest key

/-- CPython `dict` assignment: update in place or append. -/
def alSet {κ α : Type} [DecidableEq κ] : List (κ × α) → κ → α → List (κ × α)
  | [], key, v => [(key, v)]
  | (k, w) :: rest, key, v =>
    if k = key then (k, v) :: rest else (k, w) :: alSet rest key v

/-! ### Exact fractions

Python `float` values (Jaccard ratios, `SequenceMatcher.ratio`, candidate
scores) are modelled as exact unnormalised fractions; every constructor
below produces a positive denominator, so the cross-multiplication
comparisons agree with the rational order.  IEEE-754 rounding is not
modelled (it could only matter within one ulp of a threshold, which never
happens for the inputs below). -/

structure Q where
  num : Int
  den : Int
deriving Repr, DecidableEq

def qOfInt (n : Int) : Q := { num := n, den := 1 }

/-- `n / d` for `d > 0`. -/
def qDiv (n d : Int) : Q := { num := n, den := d }

def qAdd (a b : Q) : Q := { num := a.num * b.den + b.num * a.den, den := a.den * b.den }

def qMul (a b : Q) : Q := { num := a.num * b.num, den := a.den * b.den }

def qLe (a b : Q) : Bool := a.num * b.den ≤ b.num * a.den

def qLt (a b : Q) : Bool := a.num * b.den < b.num * a.den

/-! ## BLAKE2b with 8-byte digest (`Methods._stable_hash64`)

Exactly `hashlib.blake2b(s.encode("utf-8"), digest_size=8)` for inputs of at
most 128 bytes (the code only ever hashes character trigrams and short
n-grams, all far below one block). -/

def w64 (x : Nat) : Nat := x % (2 ^ 64)

def xor64 (a b : Nat) : Nat := Nat.xor a b

def add64 (a b : Nat) : Nat := w64 (a + b)

def rotr64 (x n : Nat) : Nat := w64 ((x >>> n) ||| (x <<< (64 - n)))

def blake2bIV : List Nat :=
  [0x6a09e667f3bcc908, 0xbb67ae8584caa73b, 0x3c6ef372fe94f82b, 0xa54ff53a5f1d36f1,
   0x510e527fade682d1, 0x9b05688c2b3e6c1f, 0x1f83d9abfb41bd6b, 0x5be0cd19137e2179]

def blake2bSigma : List (List Nat) :=
  [[0,1,2,3,4,5,6,7,8,9,10,11,12,13,14,15],
   [14,10,4,8,9,15,13,6,1,12,0,2,11,7,5,3],
   [11,8,12,0,5,2,15,13,10,14,3,6,7,1,9,4],
   [7,9,3,1,13,12,11,14,2,6,5,10,4,0,15,8],
   [9,0,5,7,2,4,10,15,14,1,11,12,6,8,3,13],
   [2,12,6,10,0,11,8,3,4,13,7,5,15,14,1,9],
   [12,5,1,15,14,13,4,10,0,7,6,3,9,2,8,11],
   [13,11,7,14,12,1,3,9,5,0,15,4,8,6,2,10],
   [6,15,14,9,11,3,0,8,12,2,13,7,1,4,10,5],
   [10,2,8,4,7,6,1,5,15,11,9,14,3,12,13,0]]

def lget (l : List Nat) (i : Nat) : Nat := l.getD i 0

def lset : List Nat → Nat → Nat → List Nat
  | [], _, _ => []
  | _ :: rest, 0, v => v :: rest
  | x :: rest, Nat.succ i, v => x :: lset rest i v

/-- The BLAKE2b G mixing function on the 16-word working vector. -/
def blakeG (v : List Nat) (a b c d x y : Nat) : List Nat :=
  let va := add64 (add64 (lget v a) (lget v b)) x
  let vd := rotr64 (xor64 (lget v d) va) 32
  let vc := add64 (lget v c) vd
  let vb := rotr64 (xor64 (lget v b) vc) 24
  let va' := add64 (add64 va vb) y
  let vd' := rotr64 (xor64 vd va') 16
  let vc' := add64 vc vd'
  let vb' := rotr64 (xor64 vb vc') 63
  lset (lset (lset (lset v a va') b vb') c vc') d vd'

def blakeRound (m v : List Nat) (s : List Nat) : List Nat :=
  let g := fun (v : List Nat) (a b c d i j : Nat) =>
    blakeG v a b c d (lget m (lget s i)) (lget m (lget s j))
  let v1 := g v 0 4 8 12 0 1
  let v2 := g v1 1 5 9 13 2 3
  let v3 := g v2 2 6 10 14 4 5
  let v4 := g v3 3 7 11 15 6 7
  let v5 := g v4 0 5 10 15 8 9
  let v6 := g v5 1 6 11 12 10 11
  let v7 := g v6 2 7 8 13 12 13
  let v8 := g v7 3 4 9 14 14 15
  v8

def blakeRounds : Nat → List Nat → List Nat → List Nat
  | 0, _, v => v
  | Nat.succ n, m, v =>
    let r := 11 - n
    blakeRounds n m (blakeRound m v (blake2bSigma.getD (r % 10) []))

/-- Bytes (little-endian) to 64-bit words, zero padded to 16 words. -/
def bytesToWords (bytes : List Nat) : List Nat :=
  (List.range 16).map (fun i =>
    ((bytes.drop (8 * i)).take 8).foldr (fun b acc => acc * 256 + b) 0)

/-- One-block BLAKE2b compression; valid for messages of ≤ 128 bytes,
digest size 8, no key. Returns the first state word `h0`. -/
def blake2b64h0 (bytes : List Nat) : Nat :=
  let m := bytesToWords bytes
  let h0 := xor64 (lget blake2bIV 0) 0x01010008
  let h := h0 :: blake2bIV.drop 1
  let v0 := h ++ blake2bIV
  let v1 := lset v0 12 (xor64 (lget v0 12) bytes.length)
  let v2 := lset v1 14 (xor64 (lget v1 14) 0xFFFFFFFFFFFFFFFF)
  let vf := blakeRounds 12 m v2
  xor64 (xor64 h0 (lget vf 0)) (lget vf 8)

/-- Reverse the byte order of a 64-bit word. -/
def byteswap64 (x : Nat) : Nat :=
  (List.range 8).foldl (fun acc i => acc * 256 + (x >>> (8 * i)) % 256) 0

/-- UTF-8 bytes of an ASCII string. -/
def strBytes (s : String) : List Nat := s.data.map Char.toNat

/-- `Methods._stable_hash64`: `int.from_bytes(blake2b(s, digest_size=8), "big")`.
The digest bytes are the little-endian encoding of the final `h0`, so the
big-endian integer is its byte swap. -/
def stable_hash64 (s : String) : Nat := byteswap64 (blake2b64h0 (strBytes s))

/-! ## `Methods.py`: text normalisation -/

/-- `Methods._normalize_text_basic` (NFKD and combining-mark removal are the
identity on the ASCII fragment): lower-case, collapse whitespace, strip. -/
def normalize_text_basic (s : String) : String :=
  charsToStr (pyStrip (collapseWS (pyLower (strChars s))))

/-- Remove a trailing `…` or `...` (with optional trailing whitespace), as
`re.sub(r"(…|\.{3})\s*$", "", t)`. -/
def stripEllipsisEnd (l : List Char) : List Char :=
  let rev := l.reverse
  let revNoWS := rev.dropWhile pyIsSpace
  if revNoWS.take 3 = ['.', '.', '.'] then (revNoWS.drop 3).reverse
  else if revNoWS.take 1 = ['…'] then (revNoWS.drop 1).reverse
  else l

def isSepChar (c : Char) : Bool :=
  c = '-' || c = '–' || c = '—' || c = '|' || c = ':'

/-- Index of the last separator character, if any. -/
def lastSepIdx (l : List Char) : Option Nat :=
  (List.range l.length).foldl
    (fun acc i => if isSepChar (l.getD i ' ') then some i else acc) none

/-- The branding-removal step of `normalize_title`: drop a short trailing
`- Site` / `| Site` style suffix.  The regex
`\s*([\-–—|:])\s*([^\-–—|:]{1,60})$` can only match at the last separator
(the tail admits no separator); the tail condition is that the text after
the separator is non-empty and at most 60 characters after greedy
whitespace consumption, holds at most 4 words, and has no digit. -/
def stripBranding (l : List Char) : List Char :=
  match lastSepIdx l with
  | none => l
  | some i =>
    let rest := l.drop (i + 1)
    let tail := rest.dropWhile pyIsSpace
    let tailG := if tail.isEmpty then rest.reverse.take 1 else tail
    if rest.isEmpty then l
    else if tailG.length > 60 then l
    else if (pySplitWS tailG).length ≤ 4 && !(tailG.any isDigitChar) then
      stripRight (l.take i)
    else l

/-- `Methods.normalize_title`: strip, drop trailing ellipsis, drop a short
branding suffix, lower-case, collapse whitespace, strip, then remove every
character outside `[a-z0-9 ]`. -/
def normalize_title (title : String) : String :=
  if (pyStrip (strChars title)).isEmpty then ""
  else
    let t := pyStrip (strChars title)
    let t := stripEllipsisEnd t
    let t := stripBranding t
    let t := pyLower t
    let t := pyStrip (collapseWS t)
    -- `re.sub(r"[^a-z0-9 ]+", "", t)` keeps spaces (and runs after the
    -- collapse, so removed symbols can leave doubled or edge spaces behind)
    charsToStr (t.filter (fun c => isLowerAlnum c || c = ' '))

/-- One step of `re.sub(r"\bnev\.?\b", "nevada", t)` on lower-cased text.
The `Bool` tracks whether the previous character was a word character
(for the left boundary); the `Nat` is fuel (the list length suffices). -/
def abbrNevAux : Nat → Bool → List Char → List Char
  | 0, _, l => l
  | Nat.succ fuel, prevW, l =>
    match l with
    | [] => []
    | c :: rest =>
      if !prevW && c = 'n' && rest.take 2 = ['e', 'v'] then
        let after := rest.drop 2
        match after with
        | '.' :: d :: tl =>
          if isWordChar d then
            (strChars "nevada") ++ abbrNevAux fuel false (d :: tl)
          else
            (strChars "nevada") ++ abbrNevAux fuel true ('.' :: d :: tl)
        | ['.'] => (strChars "nevada") ++ abbrNevAux fuel true ['.']
        | d :: tl =>
          if isWordChar d then c :: abbrNevAux fuel true rest
          else (strChars "nevada") ++ abbrNevAux fuel true (d :: tl)
        | [] => strChars "nevada"
      else c :: abbrNevAux fuel (isWordChar c) rest

def abbrNev (l : List Char) : List Char := abbrNevAux (l.length + 1) false l

/-- `Methods.normalize_title_soft`: basic normalisation, abbreviation
expansion, symbols to spaces, collapse, strip. -/
def normalize_title_soft (raw : String) : String :=
  let t := strChars (normalize_text_basic raw)
  let t := abbrNev t
  let t := t.map (fun c => if isLowerAlnum c || c = ' ' then c else ' ')
  charsToStr (pyStrip (collapseWS t))

/-- Extended stopword set `Methods.STOP_EXT`. -/
def STOP_EXT : List String :=
  ["the", "a", "an", "of", "and", "for", "to", "in", "on", "with", "by", "vs",
   "was", "is", "are",
   "la", "el", "los", "las", "de", "del", "y", "para", "en", "con", "por",
   "un", "una", "al", "lo"]

/-- Compound fusion table `Methods.COMPOUNDS`. -/
def fuseCompound2 (a b : String) : Option String :=
  if a = "cyber" && b = "attack" then some "cyberattack"
  else if a = "ransom" && b = "ware" then some "ransomware"
  else if a = "data" && b = "base" then some "database"
  else none

def fuseCompounds : List String → List String
  | [] => []
  | [x] => [x]
  | a :: b :: rest =>
    match fuseCompound2 a b with
    | some c => c :: fuseCompounds rest
    | none => a :: fuseCompounds (b :: rest)

/-- Light stemming `re.sub(r"(ing|ed|es|s)$", "", w)`: the leftmost match
wins, so an `ing` suffix is stripped before `ed`/`es`, and those before a
bare `s`. -/
def stemLight (w : String) : String :=
  let l := w.data
  if l.reverse.take 3 = ['g', 'n', 'i'] then charsToStr (l.take (l.length - 3))
  else if l.reverse.take 2 = ['d', 'e'] then charsToStr (l.take (l.length - 2))
  else if l.reverse.take 2 = ['s', 'e'] then charsToStr (l.take (l.length - 2))
  else if l.reverse.take 1 = ['s'] then charsToStr (l.take (l.length - 1))
  else w

/-- `Methods.tokens_strong`. -/
def tokens_strong (raw : String) : List String :=
  let t := normalize_title_soft raw
  let toks := (pySplitWS t.data).map charsToStr
  let toks := toks.filter (fun w => 2 < w.length && !(STOP_EXT.contains w))
  (fuseCompounds toks).map stemLight

/-- Python `set(...)` of a list: deduplicate keeping first occurrences
(only cardinalities of intersections and unions are ever used). -/
def pySet (l : List String) : List String :=
  l.foldl (fun acc x => if acc.contains x then acc else acc ++ [x]) []

def joinSep (sep : String) : List String → String
  | [] => ""
  | [x] => x
  | x :: rest => x ++ sep ++ joinSep sep rest

/-- Code-point lexicographic `≤` on character lists: Python string
comparison. -/
def lexLe : List Char → List Char → Bool
  | [], _ => true
  | _ :: _, [] => false
  | a :: as, b :: bs => if a = b then lexLe as bs else decide (a.toNat < b.toNat)

/-- Python `<=` on strings. -/
def strLeB (a b : String) : Bool := lexLe a.data b.data

/-- `Methods.bow_signature`: order-insensitive signature from the first
`k = 6` tokens of Python `sorted` (stable ascending sort). -/
def bow_signature (raw : String) : String :=
  let toks := tokens_strong raw
  joinSep "|" ((List.insertionSort (fun a b => strLeB a b = true) toks).take 6)

/-- Maximal `[a-z0-9]+` runs, as `re.findall(r"[a-z0-9]+", t)`. -/
def alnumRunsAux : List Char → List Char → List (List Char)
  | acc, [] => if acc.isEmpty then [] else [acc.reverse]
  | acc, c :: rest =>
    if isLowerAlnum c then alnumRunsAux (c :: acc) rest
    else if acc.isEmpty then alnumRunsAux [] rest
    else acc.reverse :: alnumRunsAux [] rest

def alnumRuns (l : List Char) : List String := (alnumRunsAux [] l).map charsToStr

/-- `Methods.title_prefix_key` (`k = 5` default): first `k` alphanumeric
runs of the normalised title joined with `-`. -/
def title_pfx_key (title : String) (k : Nat) : String :=
  let toks := alnumRuns (normalize_title title).data
  if toks.isEmpty then "" else joinSep "-" (toks.take k)

/-- `Methods.jaccard` on deduplicated lists standing for Python sets. -/
def jaccard (a b : List String) : Q :=
  if a.isEmpty || b.isEmpty then qOfInt 0
  else
    let inter := (a.filter (fun x => b.contains x)).length
    let union := a.length + (b.filter (fun x => !(a.contains x))).length
    if union = 0 then qOfInt 0 else qDiv inter union

/-! ## `Methods.py`: SimHash fingerprints -/

/-- `Methods.char_ngrams`: n-grams of the basic-normalised text with
everything outside `[a-z0-9 ]` removed (spaces kept), as a list. -/
def char_ngrams (s : String) (n : Nat) : List String :=
  let l := (strChars (normalize_text_basic s)).filter
    (fun c => isLowerAlnum c || c = ' ')
  if l.length + 1 ≤ n then []
  else (List.range (l.length + 1 - n)).map (fun i => charsToStr ((l.drop i).take n))

/-- `Methods.char_shingles`: trigram set of the basic-normalised text with
everything outside `[a-z0-9]` removed (spaces removed too). -/
def char_shingles (s : String) (n : Nat) : List String :=
  let l := (strChars (normalize_text_basic s)).filter isLowerAlnum
  if l.length + 1 ≤ n then []
  else pySet ((List.range (l.length + 1 - n)).map
    (fun i => charsToStr ((l.drop i).take n)))

def bitSigns (h : Nat) : List Int :=
  (List.range 64).map (fun i => if (h >>> i) % 2 = 1 then (1 : Int) else -1)

/-- `Methods.simhash64`. -/
def simhash64 (features : List String) : Nat :=
  let V := features.foldl
    (fun V f => List.zipWith (· + ·) V (bitSigns (stable_hash64 f)))
    (List.replicate 64 (0 : Int))
  (List.range 64).foldl
    (fun x i => if 0 ≤ V.getD i 0 then x ||| (1 <<< i) else x) 0

/-- `Methods.hamming_dist64`: popcount of the XOR (the loop `x &= x - 1`
counts exactly the set bits). -/
def hamming_dist64 (a b : Nat) : Nat :=
  (List.range 64).foldl
    (fun c i => c + ((Nat.xor a b) >>> i) % 2) 0

def simhash_title64 (title : String) : Nat := simhash64 (char_ngrams title 3)

/-- `Methods.simhash_bands` with `bands = 4`, `bits = 64`: 4 bands of
16 bits, keyed `(band index, band value)`. -/
def simhash_bands (h : Nat) (bands : Nat) : List (Nat × Nat) :=
  let bsize := 64 / bands
  let mask := (1 <<< bsize) - 1
  (List.range bands).map (fun i => (i, (h >>> (i * bsize)) &&& mask))

/-! ## `Methods.py`: URL normalisation

`urllib.parse` is modelled for the common `scheme://host/path?query#frag`
shapes the code feeds it (percent-encoding and `;params` splitting are not
modelled; no input below uses them). -/

structure UrlParts where
  scheme : String
  netloc : String
  path : String
  query : String
  fragment : String
deriving Repr, DecidableEq

/-- Split at the first occurrence of a character: `(before, after?)`. -/
def splitFirstChar (l : List Char) (c : Char) : List Char × Option (List Char) :=
  match l.findIdx? (fun x => x = c) with
  | none => (l, none)
  | some i => (l.take i, some (l.drop (i + 1)))

/-- Index of the first occurrence of a sub-list. -/
def findSubIdx : List Char → List Char → Option Nat
  | _, [] => some 0
  | [], _ => none
  | c :: rest, pat =>
    if (c :: rest).take pat.length = pat then some 0
    else (findSubIdx rest pat).map (· + 1)

/-- `s.startswith(pre)` via character lists (kernel-computable). -/
def strStartsWith (s pre : String) : Bool :=
  s.data.take pre.data.length = pre.data

/-- `s[n:]` via character lists. -/
def strDropN (s : String) (n : Nat) : String := charsToStr (s.data.drop n)

def urlparseM (u : String) : UrlParts :=
  let l := u.data
  let (beforeFrag, fragO) := splitFirstChar l '#'
  let (beforeQ, queryO) := splitFirstChar beforeFrag '?'
  match findSubIdx beforeQ [':', '/', '/'] with
  | some i =>
    let scheme := beforeQ.take i
    let rest := beforeQ.drop (i + 3)
    let (netloc, pathO) := match rest.findIdx? (fun x => x = '/') with
      | none => (rest, ([] : List Char))
      | some j => (rest.take j, rest.drop j)
    { scheme := charsToStr (pyLower scheme), netloc := charsToStr netloc,
      path := charsToStr pathO,
      query := charsToStr (queryO.getD []),
      fragment := charsToStr (fragO.getD []) }
  | none =>
    { scheme := "", netloc := "", path := charsToStr beforeQ,
      query := charsToStr (queryO.getD []),
      fragment := charsToStr (fragO.getD []) }

def urlunparseM (p : UrlParts) : String :=
  (if p.scheme ≠ "" then p.scheme ++ ":" else "")
    ++ (if p.netloc ≠ "" then "//" ++ p.netloc
        else if p.scheme ≠ "" then "//" else "")
    ++ p.path
    ++ (if p.query ≠ "" then "?" ++ p.query else "")
    ++ (if p.fragment ≠ "" then "#" ++ p.fragment else "")

/-- Replace every occurrence of `pat` (lower-case) case-insensitively by
`rep`, scanning left to right (`re.sub` with `re.I`). Fuel-based. -/
def replaceSubCIAux : Nat → List Char → List Char → List Char → List Char
  | 0, _, _, l => l
  | Nat.succ fuel, pat, rep, l =>
    match l with
    | [] => []
    | c :: rest =>
      if pyLower (l.take pat.length) = pat && pat ≠ [] then
        rep ++ replaceSubCIAux fuel pat rep (l.drop pat.length)
      else c :: replaceSubCIAux fuel pat rep rest

def replaceSubCI (pat rep : String) (l : List Char) : List Char :=
  replaceSubCIAux (l.length + 1) pat.data rep.data l

/-- `re.sub(r"/amp(/|$)", "/", u, flags=re.I)`. -/
def stripAmpSegAux : Nat → List Char → List Char
  | 0, l => l
  | Nat.succ fuel, l =>
    match l with
    | [] => []
    | c :: rest =>
      if pyLower (l.take 4) = ['/', 'a', 'm', 'p'] then
        match l.drop 4 with
        | '/' :: tl => '/' :: stripAmpSegAux fuel tl
        | [] => ['/']
        | _ => c :: stripAmpSegAux fuel rest
      else c :: stripAmpSegAux fuel rest

def stripAmpSeg (l : List Char) : List Char := stripAmpSegAux (l.length + 1) l

/-- `re.sub(r"[?&]outputType=amp\b", "", u, flags=re.I)`. -/
def stripOutputTypeAmpAux : Nat → List Char → List Char
  | 0, l => l
  | Nat.succ fuel, l =>
    match l with
    | [] => []
    | c :: rest =>
      if (c = '?' || c = '&')
          && pyLower (rest.take 14) = ("outputtype=amp").data
          && (match rest.drop 14 with
              | [] => true
              | d :: _ => !isWordChar d) then
        stripOutputTypeAmpAux fuel (rest.drop 14)
      else c :: stripOutputTypeAmpAux fuel rest

def stripOutputTypeAmp (l : List Char) : List Char :=
  stripOutputTypeAmpAux (l.length + 1) l

/-- Collapse runs of `/` (`re.sub(r"/{2,}", "/", path)`). -/
def collapseSlashAux : Bool → List Char → List Char
  | _, [] => []
  | prevSlash, c :: rest =>
    if c = '/' then
      if prevSlash then collapseSlashAux true rest
      else '/' :: collapseSlashAux true rest
    else c :: collapseSlashAux false rest

/-- Path cleanup used by `normalize_url` and `url_signature`:
collapse `/` runs, drop trailing `/`s, default to `/`. -/
def cleanPath (p : String) : String :=
  let p0 := if p = "" then "/" else p
  let p1 := collapseSlashAux false p0.data
  let p2 := (p1.reverse.dropWhile (fun c => c = '/')).reverse
  if p2.isEmpty then "/" else charsToStr p2

/-- `urllib.parse.parse_qsl(query, keep_blank_values=True)` without
percent-decoding (no input below is percent-encoded). -/
def parseQsl (q : String) : List (String × String) :=
  ((splitOnChar '&' q.data).filter (fun p => !p.isEmpty)).map (fun piece =>
    match splitFirstChar piece '=' with
    | (k, none) => (charsToStr k, "")
    | (k, some v) => (charsToStr k, charsToStr v))

/-- The tracking-parameter filter
`^(utm_|fbclid|gclid|mc_|ref$|ref_src$|trk$|spm$|igshid$|si$)` (case
insensitive). -/
def isTrackingKey (k : String) : Bool :=
  let lk := charsToStr (pyLower k.data)
  strStartsWith lk "utm_" || strStartsWith lk "fbclid" || strStartsWith lk "gclid"
    || strStartsWith lk "mc_" || lk = "ref" || lk = "ref_src" || lk = "trk"
    || lk = "spm" || lk = "igshid" || lk = "si"

/-- `urllib.parse.urlencode(kept_qs, doseq=True)` without percent-encoding. -/
def urlencodeM (kvs : List (String × String)) : String :=
  joinSep "&" (kvs.map (fun kv => kv.1 ++ "=" ++ kv.2))

/-- `Methods.normalize_url`. -/
def normalize_url (url : String) : String :=
  if (pyStrip url.data).isEmpty then ""
  else
    let u := pyStrip url.data
    let u := replaceSubCI "://m." "://" u
    let u := replaceSubCI "://amp." "://" u
    let u := stripAmpSeg u
    let u := stripOutputTypeAmp u
    let parts := urlparseM (charsToStr u)
    let path := cleanPath parts.path
    let kept := (parseQsl parts.query).filter (fun kv => !isTrackingKey kv.1)
    let query := urlencodeM kept
    charsToStr (pyLower (urlunparseM
      { parts with path := path, query := query, fragment := "" }).data)

/-- `Methods.url_signature`: host+path of the normalised URL, `www.`
stripped. -/
def url_signature (url : String) : String :=
  if (pyStrip url.data).isEmpty then ""
  else
    let u := normalize_url url
    let p := urlparseM u
    let host := charsToStr (pyLower p.netloc.data)
    let host := if strStartsWith host "www." then strDropN host 4 else host
    host ++ cleanPath p.path

/-- `Methods._domain_of`. -/
def domain_of (urlNorm : String) (source : String) : String :=
  if urlNorm ≠ "" then
    let d := charsToStr (pyLower (urlparseM urlNorm).netloc.data)
    if strStartsWith d "www." then strDropN d 4 else d
  else
    let base := match findSubIdx source.data [' ', '('] with
      | none => source.data
      | some i => source.data.take i
    charsToStr (pyLower (pyStrip base))

/-- `Methods._title_key`. -/
def title_key (titleNorm ymd domain : String) : String :=
  titleNorm ++ "|" ++ charsToStr (pyStrip ymd.data) ++ "|"
    ++ charsToStr (pyStrip domain.data)

/-- `Methods._hash12` — a truncated SHA-1 hex digest used only as an opaque
key; modelled as an injective encoding of its input (real collisions are
assumed absent). -/
def hash12 (s : String) : String := "sha12:" ++ s

/-- SHA-1 hex digest of the normalised title (`idx_by_title_sha` keys) —
used only for exact-key equality; modelled as an injective encoding. -/
def sha1hex (s : String) : String := "sha1:" ++ s

/-! ## Dates (`datetime.strptime(s, "%d-%m-%Y")` and day arithmetic) -/

def isLeapYear (y : Nat) : Bool :=
  y % 4 = 0 && (y % 100 ≠ 0 || y % 400 = 0)

def daysInMonth (m y : Nat) : Nat :=
  if m = 2 then (if isLeapYear y then 29 else 28)
  else if m = 4 || m = 6 || m = 9 || m = 11 then 30
  else 31

/-- Parse `"DD-MM-YYYY"` (1–2 digit day/month, 4 digit year, calendar
validated) as `strptime` does, to `(day, month, year)`. -/
def parseDMY (s : String) : Option (Nat × Nat × Nat) :=
  match splitOnChar '-' s.data with
  | [dC, mC, yC] =>
    if dC.length ≤ 2 && mC.length ≤ 2 && yC.length = 4 then
      match chunkToNat? dC, chunkToNat? mC, chunkToNat? yC with
      | some d, some m, some y =>
        if 1 ≤ m && m ≤ 12 && 1 ≤ d && d ≤ daysInMonth m y then some (d, m, y)
        else none
      | _, _, _ => none
    else none
  | _ => none

/-- Days since 1970-01-01 of a Gregorian civil date (Hinnant's formula). -/
def daysFromCivil (y m d : Int) : Int :=
  let y' := if m ≤ 2 then y - 1 else y
  let era := Int.fdiv y' 400
  let yoe := y' - era * 400
  let mp := if m > 2 then m - 3 else m + 9
  let doy := Int.fdiv (153 * mp + 2) 5 + d - 1
  let doe := yoe * 365 + Int.fdiv yoe 4 - Int.fdiv yoe 100 + doy
  era * 146097 + doe - 719468

/-- `NewsSearchEngine._ymd_from_ddmmyyyy`, as a day number. -/
def ymd_from_ddmmyyyy (s : String) : Option Int :=
  if s = "" then none
  else match parseDMY s with
    | none => none
    | some (d, m, y) => some (daysFromCivil (Int.ofNat y) (Int.ofNat m) (Int.ofNat d))

/-- `NewsSearchEngine._dates_close`: a missing date never blocks a match. -/
def dates_close (d1 d2 : Option Int) (days : Nat) : Bool :=
  match d1, d2 with
  | some a, some b => (a - b).natAbs ≤ days
  | _, _ => true

def natToCharsAux : Nat → Nat → List Char
  | 0, _ => []
  | Nat.succ fuel, n =>
    if n < 10 then [Char.ofNat (48 + n)]
    else natToCharsAux fuel (n / 10) ++ [Char.ofNat (48 + n % 10)]

def natToStr (n : Nat) : String := charsToStr (natToCharsAux (n + 1) n)

def padLeftZeros (w : Nat) (s : String) : String :=
  charsToStr (List.replicate (w - s.data.length) '0' ++ s.data)

/-- `datetime.strptime(date, "%d-%m-%Y").strftime("%Y-%m-%d")`, empty on
parse failure (the `except` branch leaves `ymd = ""`). -/
def ddmmyyyyToYmd (date : String) : String :=
  match parseDMY date with
  | none => ""
  | some (d, m, y) =>
    padLeftZeros 4 (natToStr y) ++ "-" ++ padLeftZeros 2 (natToStr m)
      ++ "-" ++ padLeftZeros 2 (natToStr d)

/-! ## `difflib.SequenceMatcher` (junk-free, as used on short strings)

`SequenceMatcher(None, a, b)` with `len(b) < 200` has empty junk and
popular sets, so `ratio()` is determined by the plain
longest-matching-block recursion implemented here. -/

def b2jBuild (b : List Char) : List (Char × List Nat) :=
  (List.range b.length).foldl
    (fun acc j =>
      let c := b.getD j ' '
      alSet acc c ((alFind? acc c).getD [] ++ [j]))
    []

/-- Inner loop of `find_longest_match` for one `i`: walk the ascending
occurrence positions of `a[i]` in `b`, extending diagonal runs.  Reads come
from the previous row's `j2len`; the new row's dict starts empty
(`newj2len = {}` in difflib). -/
def flmInner (j2len : List (Nat × Nat)) (js : List Nat) (blo bhi i : Nat)
    (best : Nat × Nat × Nat) : (List (Nat × Nat)) × (Nat × Nat × Nat) :=
  js.foldl
    (fun (st : (List (Nat × Nat)) × (Nat × Nat × Nat)) j =>
      if j < blo || bhi ≤ j then st
      else
        let (newj2len, b) := st
        let k := (if j = 0 then 0 else (alFind? j2len (j - 1)).getD 0) + 1
        let newj2len := alSet newj2len j k
        let b := if k > b.2.2 then (i + 1 - k, j + 1 - k, k) else b
        (newj2len, b))
    ([], best)

def findLongestMatchAux (a : List Char) (b2j : List (Char × List Nat))
    (blo bhi : Nat) :
    Nat → Nat → List (Nat × Nat) → (Nat × Nat × Nat) → (Nat × Nat × Nat)
  | _, 0, _, best => best
  | i, Nat.succ steps, j2len, best =>
    let js := (alFind? b2j (a.getD i ' ')).getD []
    let (newj2len, best') := flmInner j2len js blo bhi i best
    findLongestMatchAux a b2j blo bhi (i + 1) steps newj2len best'

/-- `SequenceMatcher.find_longest_match(alo, ahi, blo, bhi)` without junk:
returns `(besti, bestj, bestsize)`. -/
def findLongestMatch (a b : List Char) (alo ahi blo bhi : Nat) :
    Nat × Nat × Nat :=
  findLongestMatchAux a (b2jBuild b) blo bhi alo (ahi - alo) [] (alo, blo, 0)

/-- Total size of all matching blocks (`get_matching_blocks` recursion). -/
def smMatchTotal (a b : List Char) :
    Nat → Nat → Nat → Nat → Nat → Nat
  | 0, _, _, _, _ => 0
  | Nat.succ fuel, alo, ahi, blo, bhi =>
    let (i, j, k) := findLongestMatch a b alo ahi blo bhi
    if k = 0 then 0
    else smMatchTotal a b fuel alo i blo j + k
      + smMatchTotal a b fuel (i + k) ahi (j + k) bhi

/-- `SequenceMatcher(None, a, b).ratio()`. -/
def smRatio (a b : String) : Q :=
  let la := a.data.length
  let lb := b.data.length
  if la + lb = 0 then qOfInt 1
  else
    let m := smMatchTotal a.data b.data (la + lb + 1) 0 la 0 lb
    qDiv (2 * m) (la + lb)

/-- `re.findall(r"\b\d+\b", s)`: maximal digit runs flanked by non-word
characters (or the ends). Fuel-based. -/
def boundedNumRunsAux : Nat → Option Char → List Char → List String
  | 0, _, _ => []
  | Nat.succ fuel, prev, l =>
    match l with
    | [] => []
    | c :: rest =>
      if isDigitChar c && (match prev with | none => true | some p => !isWordChar p) then
        let run := (c :: rest).takeWhile isDigitChar
        let rest' := (c :: rest).dropWhile isDigitChar
        match rest' with
        | [] => [charsToStr run]
        | d :: _ =>
          if isWordChar d then boundedNumRunsAux fuel (some (run.getLastD 'x')) rest'
          else charsToStr run :: boundedNumRunsAux fuel (some (run.getLastD 'x')) rest'
      else boundedNumRunsAux fuel (some c) rest

def boundedNumRuns (l : List Char) : List String :=
  boundedNumRunsAux (l.length + 1) none l

/-- `Methods.prefix_title_equiv`: word-boundary truncation equivalence. -/
def pfx_title_equiv (t1 t2 : String) : Bool :=
  if t1 = "" || t2 = "" then false
  else
    let w1 := alnumRuns (normalize_text_basic t1).data
    let w2 := alnumRuns (normalize_text_basic t2).data
    if w1.isEmpty || w2.isEmpty || w1.length = 1 || w2.length = 1 then false
    else
      let sl := if w1.length ≤ w2.length then (w1, w2) else (w2, w1)
      let short := sl.1
      let long := sl.2
      if short.dropLast ≠ long.take (short.length - 1) then false
      else if !strStartsWith (long.getD (short.length - 1) "")
          (short.getLastD "") then false
      else
        let r := smRatio (joinSep " " short)
          (joinSep " " (long.take (short.length + 1)))
        if qLt r (qDiv 9 10) then false
        else
          let numsShort := pySet (boundedNumRuns (joinSep " " short).data)
          let numsLong := pySet (boundedNumRuns (joinSep " " long).data)
          numsShort.all (fun n => numsLong.contains n)

/-- `NewsSearchEngine._summary_tokens`: alphanumeric runs of length > 3. -/
def summary_tokens (s : String) : List String :=
  if s = "" then []
  else pySet ((alnumRuns (normalize_text_basic s).data).filter
    (fun w => 3 < w.data.length))

/-! ## `SearchEngineNews.py`: the dedup engine

An observation dict as produced by `format_result` (all ten keys present;
optional values empty/None).  Python truthiness is per field type. -/

structure NewsItem where
  itemId : String            -- "ID"
  source : List String       -- "Source"
  title : String             -- "Title"
  summary : String           -- "Summary"
  year : Option Int          -- "Year"
  date : String              -- "Date" (expected "DD-MM-YYYY")
  url : String               -- "URL"
  language : Option String   -- "Language"
  needsEnrichment : Bool     -- "NeedsEnrichment"
  searchTimestamp : String   -- "SearchTimestamp"
deriving Repr, DecidableEq

/-- A stored `raw_items` entry: the dict plus the cached `_simhash64` /
`_sum_simhash64` keys (absent = `none`). -/
structure StoredItem where
  item : NewsItem
  simhashCache : Option Nat
  sumSimhashCache : Option Nat
deriving Repr, DecidableEq

structure NewsEngine where
  ia_analyzed_ids : List String
  final_results : List (String × StoredItem)
  raw_items : List (String × StoredItem)
  gnews_ids : List String
  newsapi_ids : List String
  serpapi_ids : List String
  gdelt_ids : List String
  newsdata_ids : List String
  duplicate_count : Nat
  idx_by_url : List (String × String)
  idx_by_title : List (String × String)
  idx_by_title_sha : List (String × String)
  idx_by_simhash_band : List ((Nat × Nat) × List String)
  idx_by_url_sig : List (String × String)
  idx_by_title_pfx : List (String × List String)
  idx_by_bow_sig : List (String × List String)
deriving Repr, DecidableEq

/-- A freshly constructed `NewsSearchEngine()` (state-relevant fields). -/
def emptyNewsEngine : NewsEngine :=
  { ia_analyzed_ids := [], final_results := [], raw_items := []
    gnews_ids := [], newsapi_ids := [], serpapi_ids := []
    gdelt_ids := [], newsdata_ids := [], duplicate_count := 0
    idx_by_url := [], idx_by_title := [], idx_by_title_sha := []
    idx_by_simhash_band := [], idx_by_url_sig := []
    idx_by_title_pfx := [], idx_by_bow_sig := [] }

/-- Engine dedup constants from `__init__`. -/
def simhash_bands_n : Nat := 4
def simhash_hamming_threshold : Nat := 8
def cross_days : Nat := 3
def title_pfx_k : Nat := 4
def enable_summary_fallback : Bool := true
def summary_hamming_threshold : Nat := 12
def summary_jaccard_min : Q := qDiv 7 10

def truthyOStr : Option String → Bool
  | none => false
  | some s => s ≠ ""

def truthyYear : Option Int → Bool
  | none => false
  | some v => v ≠ 0

def containsSub (s sub : String) : Bool := (findSubIdx s.data sub.data).isSome

/-- The merge rule for `Summary`: the existing value (stripped, lowered) is
empty, exactly `"no abstract"`, or contains `"not available"` /
`"no disponible"`. -/
def summaryPrevReplaceable (prev : String) : Bool :=
  let p := charsToStr (pyLower (pyStrip prev.data))
  p = "" || p = "no abstract" || containsSub p "not available"
    || containsSub p "no disponible"

/-- The incoming `Summary` is acceptable: non-blank after strip/lower, does
not start with `"no abstract"` and contains neither placeholder marker. -/
def summaryNewAcceptable (v : String) : Bool :=
  let n := charsToStr (pyLower (pyStrip v.data))
  n ≠ "" && !strStartsWith n "no abstract" && !containsSub n "not available"
    && !containsSub n "no disponible"

/-- The merge loop `for k, v in new_data.items()` of `add_or_update_result`
(lines 1538–1558), field by field: falsy incoming values are skipped,
`Source` appends missing entries, `Summary` follows the placeholder rule
(also refreshing `_sum_simhash64`), every other field fills only an empty
slot. -/
def mergeStored (ex : StoredItem) (nd : NewsItem) : StoredItem :=
  let it := ex.item
  -- each dict key updates a distinct field, so the sequential loop equals
  -- this simultaneous record build
  let sumUpd := nd.summary ≠ "" && summaryPrevReplaceable it.summary
      && summaryNewAcceptable nd.summary
  { item :=
      { itemId := if nd.itemId ≠ "" && it.itemId = "" then nd.itemId else it.itemId
        source :=
          if nd.source.isEmpty then it.source
          else nd.source.foldl
            (fun acc s => if acc.contains s then acc else acc ++ [s]) it.source
        title := if nd.title ≠ "" && it.title = "" then nd.title else it.title
        summary := if sumUpd then nd.summary else it.summary
        year := if truthyYear nd.year && !truthyYear it.year then nd.year else it.year
        date := if nd.date ≠ "" && it.date = "" then nd.date else it.date
        url := if nd.url ≠ "" && it.url = "" then nd.url else it.url
        language :=
          if truthyOStr nd.language && !truthyOStr it.language then nd.language
          else it.language
        needsEnrichment :=
          if nd.needsEnrichment && !it.needsEnrichment then true else it.needsEnrichment
        searchTimestamp :=
          if nd.searchTimestamp ≠ "" && it.searchTimestamp = "" then nd.searchTimestamp
          else it.searchTimestamp }
    simhashCache := ex.simhashCache
    sumSimhashCache := if sumUpd then some (simhash64 (char_ngrams nd.summary 3))
      else ex.sumSimhashCache }

/-- Append to a bucket index (`defaultdict(list)` `.append`). -/
def bucketAppend {κ : Type} [DecidableEq κ]
    (idx : List (κ × List String)) (k : κ) (v : String) : List (κ × List String) :=
  alSet idx k ((alFind? idx k).getD [] ++ [v])

/-- Append to a bucket only if absent (`if master_id not in ...`). -/
def bucketAppendNew {κ : Type} [DecidableEq κ]
    (idx : List (κ × List String)) (k : κ) (v : String) : List (κ × List String) :=
  if ((alFind? idx k).getD []).contains v then idx else bucketAppend idx k v

/-- Candidate gathering of step 3: LSH band buckets, then the
strong-token-prefix bucket, then the bag-of-words bucket.  Python collects
them into a `set` whose iteration order is unspecified; the model keeps
first-occurrence order, which only matters when two distinct candidates tie
on both Hamming distance and composite score. -/
def gatherCandidates (s : NewsEngine) (bandKeys : List (Nat × Nat))
    (pfxKey bowSig : String) : List String :=
  let fromBands := bandKeys.foldl
    (fun acc bk => acc ++ (alFind? s.idx_by_simhash_band bk).getD []) []
  let fromPfx := if pfxKey ≠ "" then (alFind? s.idx_by_title_pfx pfxKey).getD [] else []
  let fromBow := if bowSig ≠ "" then (alFind? s.idx_by_bow_sig bowSig).getD [] else []
  pySet (fromBands ++ (fromPfx ++ fromBow))

/-- Step-3 candidate evaluation (lines 1401–1445): date window, Hamming
distance, token/shingle Jaccard, truncation equivalence, acceptance rule
and best-candidate selection. -/
def step3Best (s : NewsEngine) (title : String) (titleSim : Nat)
    (pfxKey : String) (newD : Option Int) (cands : List String) : Option String :=
  let res := cands.foldl
    (fun (st : Option String × Nat × Q) mid =>
      match alFind? s.raw_items mid with
      | none => st
      | some ex =>
        let exD := ymd_from_ddmmyyyy ex.item.date
        if !dates_close newD exD cross_days then st
        else
          let exTitle := ex.item.title
          let exSim := if ex.simhashCache.getD 0 ≠ 0 then ex.simhashCache.getD 0
            else simhash_title64 exTitle
          let hd := hamming_dist64 titleSim exSim
          let ngJ := jaccard (pySet (tokens_strong title)) (pySet (tokens_strong exTitle))
          let shJ := jaccard (char_shingles title 3) (char_shingles exTitle 3)
          let truncOk := pfx_title_equiv title exTitle
          let exPfx := if exTitle ≠ "" then title_pfx_key exTitle title_pfx_k else ""
          let pfxMatch := pfxKey ≠ "" && exPfx ≠ "" && exPfx = pfxKey
          let accept :=
            (decide (hd ≤ simhash_hamming_threshold)
              && (truncOk || qLe (qDiv 72 100) ngJ || qLe (qDiv 86 100) shJ))
            || (qLe (qDiv 78 100) ngJ && qLe (qDiv 84 100) shJ)
            || (pfxMatch && (truncOk || qLe (qDiv 70 100) ngJ))
          if accept then
            let score := qAdd (qAdd (qAdd (qDiv (64 - (hd : Int)) 64)
                (qMul (qDiv 7 10) ngJ)) (qMul (qDiv 6 10) shJ))
              (if pfxMatch then qDiv 1 20 else qOfInt 0)
            if hd < st.2.1 || (hd = st.2.1 && qLt st.2.2 score) then (some mid, hd, score)
            else st
          else st)
    (none, 999, qOfInt (-1))
  res.1

/-- Step-3bis summary-similarity fallback (lines 1448–1489): scans every
stored item in insertion order. -/
def summaryBest (s : NewsEngine) (summ : String) (newD : Option Int) : Option String :=
  let sumSim := simhash64 (char_ngrams summ 3)
  let newTok := summary_tokens summ
  let res := (s.raw_items.map Prod.fst).foldl
    (fun (st : Option String × Nat × Q) mid =>
      match alFind? s.raw_items mid with
      | none => st
      | some ex =>
        if !dates_close newD (ymd_from_ddmmyyyy ex.item.date) cross_days then st
        else
          let exSum := charsToStr (pyStrip ex.item.summary.data)
          if exSum = "" then st
          else
            let exSumSim := if ex.sumSimhashCache.getD 0 ≠ 0 then ex.sumSimhashCache.getD 0
              else simhash64 (char_ngrams exSum 3)
            if sumSim = 0 || exSumSim = 0 then st
            else
              let hdS := hamming_dist64 sumSim exSumSim
              let sj := jaccard newTok (summary_tokens exSum)
              if decide (hdS ≤ summary_hamming_threshold) && qLe summary_jaccard_min sj then
                if hdS < st.2.1 || (hdS = st.2.1 && qLt st.2.2 sj) then (some mid, hdS, sj)
                else st
              else st)
    (none, 999, qOfInt (-1))
  res.1

/-- `NewsSearchEngine.add_or_update_result` (lines 1333–1584), following the
source line by line: signals, the ordered match attempts (exact URL, URL
signature, title hash, similarity candidates, summary fallback, composite
key), then creation or merge with index maintenance. -/
def add_or_update_result (s : NewsEngine) (nd : NewsItem) : NewsEngine :=
  let title := charsToStr (pyStrip nd.title.data)
  let url := charsToStr (pyStrip nd.url.data)
  let date := charsToStr (pyStrip nd.date.data)
  let src := (if nd.source.isEmpty then [""] else nd.source).headD ""
  let summ := charsToStr (pyStrip nd.summary.data)
  let normTitle := normalize_title title
  let normUrl := normalize_url url
  let urlSig := if url ≠ "" then url_signature url else ""
  let ymd := if date ≠ "" then ddmmyyyyToYmd date else ""
  let domain := domain_of normUrl src
  let tKey := if normTitle ≠ "" then title_key normTitle ymd domain else ""
  let titleSha := if normTitle ≠ "" then sha1hex normTitle else ""
  let titleSim := if title ≠ "" then simhash_title64 title else 0
  let bandKeys := if titleSim ≠ 0 then simhash_bands titleSim simhash_bands_n else []
  let pfxKey := if title ≠ "" then title_pfx_key title title_pfx_k else ""
  let bowSig := if title ≠ "" then bow_signature title else ""
  -- 1) exact URL, 1b) URL signature, 2) exact title hash
  let m1 := if normUrl ≠ "" then alFind? s.idx_by_url normUrl else none
  let m2 := m1 <|> (if urlSig ≠ "" then alFind? s.idx_by_url_sig urlSig else none)
  let m3 := m2 <|> (if titleSha ≠ "" then alFind? s.idx_by_title_sha titleSha else none)
  -- 3) LSH/prefix/bag-of-words candidates
  let newD := ymd_from_ddmmyyyy date
  let m4 := m3 <|> (if titleSim ≠ 0 then
    step3Best s title titleSim pfxKey newD (gatherCandidates s bandKeys pfxKey bowSig)
    else none)
  -- 3bis) summary fallback
  let m5 := m4 <|> (if enable_summary_fallback && summ ≠ "" then summaryBest s summ newD
    else none)
  -- 4) composite key fallback
  let m6 := m5 <|> (if tKey ≠ "" then alFind? s.idx_by_title tKey else none)
  match m6 with
  | none =>
    -- creation (lines 1496–1523)
    let master := if normUrl ≠ "" then normUrl
      else "t:" ++ hash12 (if tKey ≠ "" then tKey else if normTitle ≠ "" then normTitle else url)
    let stored : StoredItem :=
      { item := { nd with itemId := master }
        simhashCache := if titleSim ≠ 0 then some titleSim else none
        sumSimhashCache := if summ ≠ "" then some (simhash64 (char_ngrams summ 3)) else none }
    { s with
      raw_items := alSet s.raw_items master stored
      idx_by_url := if normUrl ≠ "" then alSet s.idx_by_url normUrl master else s.idx_by_url
      idx_by_url_sig := if urlSig ≠ "" then alSet s.idx_by_url_sig urlSig master
        else s.idx_by_url_sig
      idx_by_title := if tKey ≠ "" then alSet s.idx_by_title tKey master else s.idx_by_title
      idx_by_title_sha := if titleSha ≠ "" then alSet s.idx_by_title_sha titleSha master
        else s.idx_by_title_sha
      idx_by_simhash_band := bandKeys.foldl (fun idx bk => bucketAppend idx bk master)
        s.idx_by_simhash_band
      idx_by_title_pfx := if pfxKey ≠ "" then bucketAppend s.idx_by_title_pfx pfxKey master
        else s.idx_by_title_pfx
      idx_by_bow_sig := if bowSig ≠ "" then bucketAppend s.idx_by_bow_sig bowSig master
        else s.idx_by_bow_sig }
  | some masterId =>
    match alFind? s.raw_items masterId with
    | none =>
      -- degenerate branch (lines 1527–1536): master id without a record
      let stored : StoredItem :=
        { item := { nd with itemId := masterId }
          simhashCache := none, sumSimhashCache := none }
      { s with
        raw_items := alSet s.raw_items masterId stored
        idx_by_url := if normUrl ≠ "" then alSet s.idx_by_url normUrl masterId
          else s.idx_by_url
        idx_by_title := if tKey ≠ "" then alSet s.idx_by_title tKey masterId
          else s.idx_by_title
        idx_by_bow_sig := if bowSig ≠ "" then bucketAppend s.idx_by_bow_sig bowSig masterId
          else s.idx_by_bow_sig }
    | some existing =>
      -- merge (lines 1538–1584)
      let merged := mergeStored existing nd
      let simCacheVal := if merged.simhashCache.getD 0 ≠ 0 then merged.simhashCache.getD 0
        else titleSim
      let merged := if titleSim ≠ 0 then { merged with simhashCache := some simCacheVal }
        else merged
      let merged := if summ ≠ "" && merged.sumSimhashCache.isNone then
          { merged with sumSimhashCache := some (simhash64 (char_ngrams summ 3)) }
        else merged
      { s with
        raw_items := alSet s.raw_items masterId merged
        idx_by_url := if normUrl ≠ "" && (alFind? s.idx_by_url normUrl).isNone then
            alSet s.idx_by_url normUrl masterId
          else s.idx_by_url
        idx_by_url_sig := if urlSig ≠ "" && (alFind? s.idx_by_url_sig urlSig).isNone then
            alSet s.idx_by_url_sig urlSig masterId
          else s.idx_by_url_sig
        idx_by_title := if tKey ≠ "" && (alFind? s.idx_by_title tKey).isNone then
            alSet s.idx_by_title tKey masterId
          else s.idx_by_title
        idx_by_title_sha := if titleSha ≠ "" && (alFind? s.idx_by_title_sha titleSha).isNone then
            alSet s.idx_by_title_sha titleSha masterId
          else s.idx_by_title_sha
        idx_by_simhash_band := if titleSim ≠ 0 then
            bandKeys.foldl (fun idx bk => bucketAppendNew idx bk masterId) s.idx_by_simhash_band
          else s.idx_by_simhash_band
        idx_by_title_pfx := if pfxKey ≠ "" then bucketAppendNew s.idx_by_title_pfx pfxKey masterId
          else s.idx_by_title_pfx
        idx_by_bow_sig := if bowSig ≠ "" then bucketAppendNew s.idx_by_bow_sig bowSig masterId
          else s.idx_by_bow_sig
        duplicate_count := s.duplicate_count + 1 }

/-- The snapshot dict produced by `NewsSearchEngine.get_state_snapshot`
(lines 1587–1600): exactly these eleven entries and no index beyond
`idx_by_url` / `idx_by_title`. -/
structure NewsSnapshot where
  ia_analyzed_ids : List String
  final_results : List (String × StoredItem)
  raw_items : List (String × StoredItem)
  gnews_ids : List String
  newsapi_ids : List String
  serpapi_ids : List String
  gdelt_ids : List String
  newsdata_ids : List String
  duplicate_count : Nat
  idx_by_url : List (String × String)
  idx_by_title : List (String × String)
deriving Repr, DecidableEq

def get_state_snapshot (s : NewsEngine) : NewsSnapshot :=
  { ia_analyzed_ids := s.ia_analyzed_ids
    final_results := s.final_results
    raw_items := s.raw_items
    gnews_ids := s.gnews_ids
    newsapi_ids := s.newsapi_ids
    serpapi_ids := s.serpapi_ids
    gdelt_ids := s.gdelt_ids
    newsdata_ids := s.newsdata_ids
    duplicate_count := s.duplicate_count
    idx_by_url := s.idx_by_url
    idx_by_title := s.idx_by_title }

/-- `NewsSearchEngine.load_state_snapshot` (lines 1602–1613): assigns only
the snapshot's eleven attributes; every other engine attribute keeps the
value it had on `self` (for a fresh engine: empty). -/
def load_state_snapshot (s : NewsEngine) (snap : NewsSnapshot) : NewsEngine :=
  { s with
    ia_analyzed_ids := snap.ia_analyzed_ids
    final_results := snap.final_results
    raw_items := snap.raw_items
    gnews_ids := snap.gnews_ids
    newsapi_ids := snap.newsapi_ids
    serpapi_ids := snap.serpapi_ids
    gdelt_ids := snap.gdelt_ids
    newsdata_ids := snap.newsdata_ids
    duplicate_count := snap.duplicate_count
    idx_by_url := snap.idx_by_url
    idx_by_title := snap.idx_by_title }

/-- An all-empty observation with one source name (used in theorems). -/
def obsBare (srcName : String) : NewsItem :=
  { itemId := "", source := [srcName], title := "", summary := "", year := none
    date := "", url := "", language := none, needsEnrichment := true
    searchTimestamp := "" }

/-! ## `StateManager.py`

A checkpoint file is the insertion-ordered key/value tree that
`json.dump(..., indent=4)` serialises; since that serialiser is a
deterministic injective function of the tree (for distinct keys), two
checkpoint files are byte-for-byte equal exactly when their trees are
equal, and key order matters. -/

inductive JVal where
  | jnull
  | jbool (b : Bool)
  | jstr (s : String)
  | jint (n : Int)
  | jarr (xs : List JVal)
  | jobj (kvs : List (String × JVal))

/-- The serialised checkpoint: an ordered JSON object. -/
abbrev JFile := List (String × JVal)

def jGetD (st : JFile) (k : String) (d : JVal) : JVal := (alFind? st k).getD d

/-- `dict.setdefault`: missing keys are appended at the end. -/
def jSetdefault (st : JFile) (k : String) (v : JVal) : JFile :=
  if (alFind? st k).isSome then st else st ++ [(k, v)]

def jKeys (st : JFile) : List String := st.map Prod.fst

def asStr : JVal → String
  | .jstr s => s
  | _ => ""

def asStrList : JVal → List String
  | .jarr xs => xs.map asStr
  | _ => []

/-- Python `x or {}` on an optional dict-valued argument. -/
def jOrEmptyObj : Option JVal → JVal
  | none => .jobj []
  | some .jnull => .jobj []
  | some (.jobj []) => .jobj []
  | some v => v

/-- `StateManager.init_state` (lines 113–139); `now` stands for
`_now_iso()`.  Note the key order: `filter_stats` precedes `progress`. -/
def init_state (category : String) (keywords : Option (List String))
    (params : Option JVal) (now : String) : JFile :=
  [("version", .jint 3),
   ("category", .jstr category),
   ("status", .jstr "RUNNING"),
   ("params", (params.getD (.jobj []))),
   ("remaining_keywords", .jarr ((keywords.getD []).map .jstr)),
   ("current_keyword", .jnull),
   ("cursors", .jobj []),
   ("analiced_ids", .jarr []),
   ("results", .jobj []),
   ("engine_state", .jnull),
   ("filter_stats", .jobj []),
   ("progress", .jobj
     [("total_keywords", .jint (keywords.getD []).length),
      ("processed_keywords", .jint 0)]),
   ("last_error", .jnull),
   ("last_saved_at", .jstr now)]

/-- `StateManager.save_state` (lines 141–188).  `extra` models `**extra`;
note the key order: `progress` precedes `filter_stats`, unlike
`init_state`. -/
def save_state (category : String) (remaining_keywords : Option (List String))
    (results : Option JVal) (engine_state : JVal)
    (analiced_ids : Option (List String)) (filter_stats : Option JVal)
    (extra : JFile) (now : String) : JFile :=
  let status := jGetD extra "status" (.jstr "RUNNING")
  let params := jGetD extra "params" (.jobj [])
  let current_keyword := jGetD extra "current_keyword" .jnull
  let cursors := jGetD extra "cursors" (.jobj [])
  let last_error := jGetD extra "last_error" .jnull
  let progress :=
    if (alFind? extra "progress").isSome then jGetD extra "progress" .jnull
    else
      let totalKw : Int := match remaining_keywords with
        | some l => if l.isEmpty then 0 else l.length
        | none => 0
      let processed := jGetD extra "processed_keywords" (.jint 0)
      .jobj [("total_keywords", .jint totalKw), ("processed_keywords", processed)]
  let base : JFile :=
    [("version", .jint 3),
     ("category", .jstr category),
     ("status", status),
     ("params", params),
     ("remaining_keywords", .jarr ((match remaining_keywords with
        | some l => l
        | none => []).map .jstr)),
     ("current_keyword", current_keyword),
     ("cursors", cursors),
     ("analiced_ids", .jarr ((analiced_ids.getD []).map .jstr)),
     ("results", (results.getD (.jobj []))),
     ("engine_state", engine_state),
     ("progress", progress),
     ("filter_stats", jOrEmptyObj filter_stats),
     ("last_error", last_error),
     ("last_saved_at", .jstr now)]
  let known := ["status", "params", "current_keyword", "cursors", "progress",
    "last_error", "processed_keywords"]
  let extras := extra.filter (fun kv => !(known.contains kv.1))
  if extras.isEmpty then base else base ++ [("extras", .jobj extras)]

/-- `StateManager.patch_state` (lines 190–203): read the bound file (`{}`
when unreadable), optionally replace `filter_stats`, apply the patch via
`dict.update`, refresh `last_saved_at`. -/
def patch_state (file : Option JFile) (filter_stats : Option JVal)
    (patch : JFile) (now : String) : JFile :=
  let st := file.getD []
  let st := match filter_stats with
    | none => st
    | some v => alSet st "filter_stats" v
  let st := patch.foldl (fun acc kv => alSet acc kv.1 kv.2) st
  alSet st "last_saved_at" (.jstr now)

/-- `StateManager.load_state` (lines 205–231): parse the bound file and
apply `setdefault` normalisations (appending only missing keys). -/
def load_state (file : Option JFile) (now : String) : Option JFile :=
  match file with
  | none => none
  | some st =>
    let st := jSetdefault st "version" (.jint 1)
    let st := jSetdefault st "status" (.jstr "RUNNING")
    let st := jSetdefault st "params" (.jobj [])
    let st := jSetdefault st "current_keyword" .jnull
    let st := jSetdefault st "cursors" (.jobj [])
    let st := jSetdefault st "analiced_ids" (.jarr [])
    let st := jSetdefault st "results" (.jobj [])
    let st := jSetdefault st "filter_stats" (.jobj [])
    let st := jSetdefault st "engine_state" .jnull
    let st :=
      if (alFind? st "progress").isSome then st
      else st ++ [("progress", .jobj
        [("total_keywords", .jint (asStrList (jGetD st "remaining_keywords" (.jarr []))).length),
         ("processed_keywords", .jint 0)])]
    let st := jSetdefault st "last_error" .jnull
    let st := jSetdefault st "last_saved_at" (.jstr now)
    some st

/-- `StateManager.mark_error`: `patch_state` with `status="ERROR"` plus the
caller's extra patch keys. -/
def mark_error (file : Option JFile) (filter_stats : Option JVal)
    (extra : JFile) (now : String) : JFile :=
  patch_state file filter_stats ([("status", .jstr "ERROR")] ++ extra) now

/-- `StateManager.mark_completed` (lines 244–246): `patch_state` with
`status="COMPLETED"`, `last_error=None` plus extra patch keys. -/
def mark_completed (file : Option JFile) (filter_stats : Option JVal)
    (extra : JFile) (now : String) : JFile :=
  patch_state file filter_stats
    ([("status", .jstr "COMPLETED"), ("last_error", .jnull)] ++ extra) now

/-- Re-saving a loaded checkpoint "without further mutation": call
`save_state` passing every field of the loaded dict back unchanged. -/
def resaveLoaded (st : JFile) (now : String) : JFile :=
  save_state (asStr (jGetD st "category" .jnull))
    (some (asStrList (jGetD st "remaining_keywords" (.jarr []))))
    (some (jGetD st "results" (.jobj [])))
    (jGetD st "engine_state" .jnull)
    (some (asStrList (jGetD st "analiced_ids" (.jarr []))))
    (some (jGetD st "filter_stats" (.jobj [])))
    [("status", jGetD st "status" (.jstr "RUNNING")),
     ("params", jGetD st "params" (.jobj [])),
     ("current_keyword", jGetD st "current_keyword" .jnull),
     ("cursors", jGetD st "cursors" (.jobj [])),
     ("progress", jGetD st "progress" .jnull),
     ("last_error", jGetD st "last_error" .jnull)]
    now

/-! ## `main_app.py`: the "Retomar Búsqueda" (resume) branch (lines 475–648)

Provider I/O is the external collaborator: `outcomes kw` abstracts what one
`searcher.search(kw)` invocation does (succeed, or raise one of the three
recoverable provider failures).  `searchCalls` counts `searcher.search`
invocations; the checkpoint file evolves through the `StateManager`
functions above.  Payload values written into patches (results, engine
snapshot, filter stats) are opaque to the claims checked here and are
passed through from the uploaded state / left as `null`. -/

inductive ProviderOutcome where
  | ok
  | rateLimited
  | blocked
  | networkFailure
deriving Repr, DecidableEq

structure ResumeOutcome where
  file : JFile
  searchCalls : Nat
  markCompletedCalled : Bool
  stoppedEarly : Bool

/-- The per-keyword resume loop `_resume_loop` (lines 578–627) together
with the post-loop finalisation: pre-attempt patch, `searcher.search(kw)`,
post-attempt patch; a recoverable provider failure marks `ERROR` and
stops. -/
def resume_loop (outcomes : String → ProviderOutcome) (now : String) :
    JFile → Nat → List String → JFile × Nat × Bool
  | file, calls, [] => (file, calls, true)
  | file, calls, kw :: rest =>
    let file := patch_state (some file) none
      [("current_keyword", .jstr kw),
       ("remaining_keywords", .jarr ((kw :: rest).map .jstr))] now
    match outcomes kw with
    | .ok =>
      let file := patch_state (some file) none
        [("remaining_keywords", .jarr (rest.map .jstr))] now
      resume_loop outcomes now file (calls + 1) rest
    | _ =>
      (mark_error (some file) none
        [("remaining_keywords", .jarr ((kw :: rest).map .jstr)),
         ("current_keyword", .jstr kw)] now,
       calls + 1, false)

/-- The resume branch: seed the bound file with the uploaded state, stop
immediately when `remaining_keywords` is empty (lines 558–562, `st.stop()`
— in particular `mark_completed` is not reached), otherwise write a
`RUNNING` checkpoint, run the loop and finalise with `mark_completed`
(lines 639–648). -/
def resume_news (sf : JFile) (outcomes : String → ProviderOutcome)
    (now : String) : ResumeOutcome :=
  let remaining := asStrList (jGetD sf "remaining_keywords" (.jarr []))
  if remaining.isEmpty then
    { file := sf, searchCalls := 0, markCompletedCalled := false, stoppedEarly := true }
  else
    let file1 := save_state (asStr (jGetD sf "category" .jnull))
      (some remaining)
      (some (jGetD sf "results" (.jobj [])))
      (jGetD sf "engine_state" .jnull)
      (some (asStrList (jGetD sf "analiced_ids" (.jarr []))))
      (some (jGetD sf "filter_stats" (.jobj [])))
      [("params", jGetD sf "params" (.jobj [])), ("status", .jstr "RUNNING")]
      now
    match resume_loop outcomes now file1 0 remaining with
    | (fileF, calls, true) =>
      { file := mark_completed (some fileF) none
          [("remaining_keywords", .jarr []), ("current_keyword", .jnull)] now
        searchCalls := calls, markCompletedCalled := true, stoppedEarly := false }
    | (fileF, calls, false) =>
      { file := fileF, searchCalls := calls
        markCompletedCalled := false, stoppedEarly := false }

/-! ## `FilterEngine.py`: the per-item cascade (lines 161–465)

The automotive scorer, the incident filter and the ensemble classifier are
collaborators here: the item's already-computed heuristic score, the
`IncidentResult` that `IncidentFilter.classify` would return, and the
ensemble verdict are inputs, so the theorems quantify over every possible
collaborator answer. -/

def cutoff_red : Int := 4
def cutoff_green : Int := 9

structure IncidentVerdict where
  keep : Bool
  score : Int
  category : Option String
  reasons : List String
deriving Repr, DecidableEq

structure ItemOutcome where
  decision : Option String
  decisionGate : Option String
  droppedAutoLogged : Bool
  droppedIncidentLogged : Bool
  incidentInvoked : Bool
  iaInvoked : Bool
  savedToFinal : Bool
  skippedByYear : Bool
deriving Repr, DecidableEq

/-- One iteration of the `for key, item in engine.raw_items.items()` loop of
`filter_and_classify_items` for a news item: year gate, automotive
heuristic red line, incident gate, IA-duplicate check, ensemble gate,
final keep. -/
def filter_process_news_item (year : Option Int) (heurScore : Int)
    (incident : IncidentVerdict) (alreadyAnalyzed : Bool)
    (applyIA : Bool) (iaRejects : Bool) : ItemOutcome :=
  let yearOk := match year with
    | none => false
    | some y => decide (2020 ≤ y) && decide (y ≤ 2025)
  if !yearOk then
    { decision := none, decisionGate := none, droppedAutoLogged := false
      droppedIncidentLogged := false, incidentInvoked := false, iaInvoked := false
      savedToFinal := false, skippedByYear := true }
  else if heurScore < cutoff_red then
    { decision := some "drop", decisionGate := some "automotive_filter"
      droppedAutoLogged := true, droppedIncidentLogged := false
      incidentInvoked := false, iaInvoked := false
      savedToFinal := false, skippedByYear := false }
  else if !incident.keep then
    { decision := some "drop", decisionGate := some "incident_filter"
      droppedAutoLogged := false, droppedIncidentLogged := true
      incidentInvoked := true, iaInvoked := false
      savedToFinal := false, skippedByYear := false }
  else if alreadyAnalyzed then
    { decision := none, decisionGate := none, droppedAutoLogged := false
      droppedIncidentLogged := false, incidentInvoked := true, iaInvoked := false
      savedToFinal := false, skippedByYear := false }
  else if applyIA && iaRejects then
    { decision := some "drop", decisionGate := some "ai_zeroshot"
      droppedAutoLogged := false, droppedIncidentLogged := false
      incidentInvoked := true, iaInvoked := true
      savedToFinal := false, skippedByYear := false }
  else
    { decision := some "keep", decisionGate := some "final"
      droppedAutoLogged := false, droppedIncidentLogged := false
      incidentInvoked := true, iaInvoked := applyIA
      savedToFinal := true, skippedByYear := false }

/-! ## `FilterIncident.py`: `IncidentFilter.classify` (lines 315–479)

The regex layer is abstracted: an `IncidentText` records, for each positive
and negative lexicon category, whether the text has at least one hit, plus
the standalone helper regexes (`re_portal`, `re_remote`, `re_exploitlike`,
the early automotive-context pattern, the plant/operations pattern and the
keyless pattern).  Every combination of these Booleans is possible input,
so theorems quantifying over `IncidentText` cover every input text.  The
score arithmetic below follows the source statement by statement; only the
reporting fields (`category`, `reasons`) are left out, as no claim
mentions them. -/

inductive IncidentMode where
  | strict
  | standard
  | broad
deriving Repr, DecidableEq

structure IncidentText where
  attackConfirmed : Bool
  ransomware : Bool
  dataTheft : Bool
  disruption : Bool
  targetsAuto : Bool
  insider : Bool
  quantifiers : Bool
  portalAbuse : Bool
  remoteControl : Bool
  vulnFound : Bool
  company : Bool
  hypothetical : Bool
  routineVuln : Bool
  unconfirmed : Bool
  denialNoimpact : Bool
  advisoryOnly : Bool
  nonautoOutage : Bool
  lifehackNoise : Bool
  roundupStructure : Bool
  unrelated : Bool
  marketNoise : Bool
  adLure : Bool
  autoContextRx : Bool
  rePortalRx : Bool
  reRemoteRx : Bool
  reExploitRx : Bool
  plantOrOpsRx : Bool
  keylessRx : Bool
deriving Repr, DecidableEq

/-- `w if b else 0`: the contribution of one matched category. -/
def bi (b : Bool) (w : Int) : Int := if b then w else 0

/-- `self.wneg["hypothetical"]`: 6 in strict mode, else 3. -/
def wneg_hypothetical : IncidentMode → Int
  | .strict => 6
  | _ => 3

/-- `self.keep_min`: 7 strict, 6 standard, 5 broad. -/
def inc_keep_min : IncidentMode → Int
  | .strict => 7
  | .standard => 6
  | .broad => 5

/-- `auto_context` after the company scan (line 344). -/
def incAutoContext (t : IncidentText) : Bool := t.autoContextRx || t.company

/-- Positive-category score plus the company weight (lines 330–343). -/
def incPosScore (t : IncidentText) : Int :=
  bi t.attackConfirmed 6 + bi t.ransomware 6 + bi t.dataTheft 5 + bi t.disruption 5
    + bi t.targetsAuto 4 + bi t.insider 2 + bi t.quantifiers 1 + bi t.portalAbuse 5
    + bi t.remoteControl 5 + bi t.vulnFound 5 + bi t.company 2

/-- Unconditional negative-category penalties (lines 346–355; every
negative category except `nonauto_outage` and `ad_lure`). -/
def incNegScore (mode : IncidentMode) (t : IncidentText) : Int :=
  bi t.hypothetical (wneg_hypothetical mode) + bi t.routineVuln 4 + bi t.unconfirmed 6
    + bi t.denialNoimpact 6 + bi t.advisoryOnly 3 + bi t.lifehackNoise 3
    + bi t.roundupStructure 3 + bi t.unrelated 4 + bi t.marketNoise 3

/-- `nonauto_outage` and `ad_lure` penalties, applied only without
automotive context (lines 357–363). -/
def incCondNeg (t : IncidentText) : Int :=
  bi (t.nonautoOutage && !incAutoContext t) 3 + bi (t.adLure && !incAutoContext t) 2

def incPortalHit (t : IncidentText) : Bool := t.portalAbuse || t.rePortalRx
def incRemoteHit (t : IncidentText) : Bool := t.remoteControl || t.reRemoteRx
def incBrandTarget (t : IncidentText) : Bool := t.company || t.targetsAuto

def incAutoEvidence (t : IncidentText) : Bool :=
  incBrandTarget t || incPortalHit t || incRemoteHit t || t.reExploitRx

/-- The `hypothetical` override ladder (lines 372–385): full neutralisation
with a real incident, `-2` net with practical evidence and a brand,
`-1` net with weaker automotive evidence. -/
def incHypOverride (mode : IncidentMode) (t : IncidentText) : Int :=
  if t.hypothetical then
    if t.attackConfirmed || t.ransomware || t.dataTheft || t.disruption then
      wneg_hypothetical mode
    else if (incPortalHit t || incRemoteHit t || t.vulnFound || t.reExploitRx)
        && incBrandTarget t then
      wneg_hypothetical mode - 2
    else if incAutoEvidence t then wneg_hypothetical mode - 1
    else 0
  else 0

/-- The `routine_vuln` override (lines 388–390). -/
def incRoutineOverride (t : IncidentText) : Int :=
  bi (t.routineVuln && t.vulnFound && incAutoEvidence t) 4

/-- Synergy bonuses (lines 393–404). -/
def incSynergies (t : IncidentText) : Int :=
  bi (t.portalAbuse && t.company) 1
    + bi (t.remoteControl && (t.company || t.targetsAuto)) 2
    + bi (t.vulnFound && (t.company || t.targetsAuto || t.portalAbuse)) 1
    + bi (t.attackConfirmed && (t.company || t.targetsAuto)) 1
    + bi (t.dataTheft && (t.company || t.targetsAuto)) 1
    + bi (t.targetsAuto && t.company) 1

def incVulnStrong (t : IncidentText) : Bool :=
  (t.vulnFound || t.dataTheft)
    && (incAutoContext t || t.company || t.targetsAuto || t.portalAbuse)

/-- The strong-signal flag (lines 416–422), before the borderline
promotion. -/
def incStrong0 (t : IncidentText) : Bool :=
  t.attackConfirmed || t.ransomware
    || (t.disruption && (incAutoContext t && t.plantOrOpsRx))
    || ((incPortalHit t || incRemoteHit t) && incAutoContext t)
    || incVulnStrong t
    || (t.keylessRx && incBrandTarget t)

/-- The roundup override (lines 425–427). -/
def incRoundupOverride (t : IncidentText) : Int :=
  bi (incStrong0 t && t.roundupStructure) 3

/-- The final score: the source accumulates these contributions in
statement order; addition order does not change the sum. -/
def incScore (mode : IncidentMode) (t : IncidentText) : Int :=
  incPosScore t - incNegScore mode t - incCondNeg t + incHypOverride mode t
    + incRoutineOverride t + incSynergies t + incRoundupOverride t

/-- The effective keep threshold (lines 434–444), applied in order. -/
def incKeepMinEff (mode : IncidentMode) (t : IncidentText) : Int :=
  let k0 := inc_keep_min mode
  let k1 := if t.dataTheft && t.company then max 5 (k0 - 2) else k0
  let k2 := if t.ransomware && t.company then max 5 (k1 - 2) else k1
  let k3 := if (t.remoteControl || t.portalAbuse) && (t.company || t.targetsAuto) then
      max 5 (k2 - 2)
    else k2
  if t.keylessRx && (t.company || t.targetsAuto) then max 5 (k3 - 1) else k3

/-- `IncidentFilter.classify` decision: `(keep, score)`.  The hard rule
(line 430) rejects `unconfirmed`/`denial` without a strong signal; the
borderline promotion (lines 446–449) and the final conjunction
`score >= keep_min_eff and strong and auto_context` (line 452) follow the
source (the trailing `if keep and not auto_context` is subsumed by the
conjunction). -/
def incident_classify (mode : IncidentMode) (t : IncidentText) : Bool × Int :=
  let score := incScore mode t
  if (t.unconfirmed || t.denialNoimpact) && !incStrong0 t then (false, score)
  else
    let k := incKeepMinEff mode t
    let borderline := decide (k - 1 ≤ score) && incAutoContext t && incBrandTarget t
      && (t.keylessRx || incPortalHit t || incRemoteHit t)
    let strong := incStrong0 t || (!incStrong0 t && borderline)
    let keep := decide (k ≤ score) && strong && incAutoContext t
    (keep, score)

/-! # Theorems

First the reference checks pinning the executable model to Python
(`hashlib`, `difflib`, `urllib`) outputs, then supporting lemmas, then one
theorem per specification claim. -/

/-- Reference digest check (`hashlib.blake2b(b"abc", digest_size=8)`). -/
theorem stable_hash64_abc : stable_hash64 "abc" = 0xd8bb14d833d59559 := by decide

/-- Reference digest check for the empty string. -/
theorem stable_hash64_empty : stable_hash64 "" = 0xe4a6a0577479b2b4 := by decide

/-- Reference value check: `simhash_title64("abc def")` computed by the
Python implementation. -/
theorem simhash_abc_def : simhash_title64 "abc def" = 0x5aaa12c27f649151 := by decide

/-- Reference value check: `simhash_title64("def abc")`. -/
theorem simhash_def_abc : simhash_title64 "def abc" = 0x41bbb4d63e5ec955 := by decide

/-- Sanity: the concrete URLs used below normalise as in Python. -/
theorem normalize_url_xcom : normalize_url "http://x.com/a" = "http://x.com/a" := by decide

/-- Sanity: tracking parameters are dropped. -/
theorem normalize_url_utm :
    normalize_url "http://x.com/a?utm_source=z" = "http://x.com/a" := by decide

/-- Sanity: `url_signature` strips scheme and keeps host+path. -/
theorem url_signature_xcom : url_signature "http://x.com/a" = "x.com/a" := by decide

/-- Sanity: `SequenceMatcher` ratio matches Python on a reference pair
(`difflib.SequenceMatcher(None, "abcd", "bcde").ratio() == 0.75`). -/
theorem smRatio_ref : smRatio "abcd" "bcde" = qDiv 6 8 := by decide

/-- Sanity: the per-row reset of `j2len` matches difflib
(`SequenceMatcher(None, "aba", "aa").ratio() == 0.8`: two size-1 blocks,
no bogus size-2 diagonal carried across rows). -/
theorem smRatio_ref2 : smRatio "aba" "aa" = qDiv 4 5 := by decide

/-- Sanity: `title_prefix_key` is the first `k` hyphen-joined alphanumeric
runs of the space-preserving normalised title (checked against Python). -/
theorem title_pfx_key_ref :
    title_pfx_key "BMW Plant Halted! After Ransomware Attack" 4
      = "bmw-plant-halted-after" := by decide

/-- Sanity: truncation equivalence accepts a one-word truncation whose
`SequenceMatcher` ratio clears 0.90 (checked against Python). -/
theorem pfx_title_equiv_ref :
    pfx_title_equiv "bmw plant halted after ransomware"
      "bmw plant halted after ransomware attack" = true := by decide

/-- Sanity: the same pair truncated one word earlier has ratio ≈ 0.84 and
is rejected (checked against Python). -/
theorem pfx_title_equiv_ref_neg :
    pfx_title_equiv "bmw plant halted after ransom"
      "bmw plant halted after ransomware attack" = false := by decide

/-- Sanity: `bow_signature` sorts strong tokens order-insensitively. -/
theorem bow_signature_ref : bow_signature "def abc" = "abc|def" := by decide

/-! ## Supporting lemmas -/

theorem alFind?_nil {κ α : Type} [DecidableEq κ] (k : κ) :
    alFind? ([] : List (κ × α)) k = none := rfl

theorem charToNat_injective {a b : Char} (h : a.toNat = b.toNat) : a = b := by
  have ha := Char.ofNat_toNat a
  have hb := Char.ofNat_toNat b
  rw [← ha, ← hb, h]

theorem lexLe_nil_left (b : List Char) : lexLe [] b = true := rfl

theorem lexLe_total : ∀ (a b : List Char), lexLe a b = true ∨ lexLe b a = true
  | [], _ => Or.inl rfl
  | _ :: _, [] => Or.inr rfl
  | a :: as, b :: bs => by
    by_cases hab : a = b
    · subst hab
      simpa [lexLe] using lexLe_total as bs
    · have hba : ¬(b = a) := fun h => hab h.symm
      rcases Nat.lt_trichotomy a.toNat b.toNat with h | h | h
      · exact Or.inl (by simp [lexLe, hab, h])
      · exact absurd (charToNat_injective h) hab
      · exact Or.inr (by simp [lexLe, hba, h])

theorem lexLe_trans : ∀ {a b c : List Char},
    lexLe a b = true → lexLe b c = true → lexLe a c = true
  | [], _, _, _, _ => rfl
  | _ :: _, [], _, h, _ => by simp [lexLe] at h
  | _ :: _, _ :: _, [], _, h => by simp [lexLe] at h
  | a :: as, b :: bs, c :: cs, h1, h2 => by
    by_cases hab : a = b <;> by_cases hbc : b = c
    · subst hab; subst hbc
      simp only [lexLe, if_pos rfl] at h1 h2 ⊢
      exact lexLe_trans h1 h2
    · subst hab
      simpa [lexLe, hbc] using h2
    · subst hbc
      simpa [lexLe, hab] using h1
    · simp only [lexLe, if_neg hab] at h1
      simp only [lexLe, if_neg hbc] at h2
      have h1' := of_decide_eq_true h1
      have h2' := of_decide_eq_true h2
      have hac : a.toNat < c.toNat := Nat.lt_trans h1' h2'
      have hne : ¬(a = c) := by
        intro h
        subst h
        exact Nat.lt_irrefl _ (Nat.lt_trans h1' h2')
      simp [lexLe, hne, hac]

theorem lexLe_antisymm : ∀ {a b : List Char},
    lexLe a b = true → lexLe b a = true → a = b
  | [], [], _, _ => rfl
  | [], _ :: _, _, h => by simp [lexLe] at h
  | _ :: _, [], h, _ => by simp [lexLe] at h
  | a :: as, b :: bs, h1, h2 => by
    by_cases hab : a = b
    · subst hab
      simp only [lexLe, if_pos rfl] at h1 h2
      rw [lexLe_antisymm h1 h2]
    · have hba : ¬(b = a) := fun h => hab h.symm
      simp only [lexLe, if_neg hab] at h1
      simp only [lexLe, if_neg hba] at h2
      exact absurd (Nat.lt_trans (of_decide_eq_true h1) (of_decide_eq_true h2))
        (Nat.lt_irrefl _)

/-- The sort relation of `bow_signature` as a proposition. -/
def strLeR (a b : String) : Prop := strLeB a b = true

instance : DecidableRel strLeR := fun a b => instDecidableEqBool (strLeB a b) true

instance : IsTotal String strLeR :=
  ⟨fun a b => lexLe_total a.data b.data⟩

instance : IsTrans String strLeR :=
  ⟨fun _ _ _ h1 h2 => lexLe_trans h1 h2⟩

instance : IsAntisymm String strLeR :=
  ⟨fun a b h1 h2 => by
    have hd := lexLe_antisymm h1 h2
    cases a; cases b
    exact congrArg String.mk hd⟩

theorem insertionSort_strLe_perm_eq {l1 l2 : List String} (h : l1.Perm l2) :
    List.insertionSort (fun a b => strLeB a b = true) l1
      = List.insertionSort (fun a b => strLeB a b = true) l2 := by
  have e1 := List.perm_insertionSort (fun a b => strLeB a b = true) l1
  have e2 := List.perm_insertionSort (fun a b => strLeB a b = true) l2
  have hsorted : ∀ l : List String,
      List.Sorted strLeR (List.insertionSort (fun a b => strLeB a b = true) l) :=
    fun l => List.sorted_insertionSort _ l
  exact List.eq_of_perm_of_sorted (e1.trans (h.trans e2.symm)) (hsorted l1) (hsorted l2)

/-- Permuting the strong tokens leaves the bag-of-words signature
unchanged (this is what makes it order-insensitive). -/
theorem bow_signature_perm {t1 t2 : String}
    (h : (tokens_strong t1).Perm (tokens_strong t2)) :
    bow_signature t1 = bow_signature t2 := by
  simp only [bow_signature]
  rw [insertionSort_strLe_perm_eq h]

theorem contains_iff_mem {l : List String} {x : String} :
    l.contains x = true ↔ x ∈ l := by
  have h : List.elem x l = true ↔ x ∈ l := List.elem_iff
  exact ⟨fun hc => h.mp hc, fun hm => h.mpr hm⟩

theorem mem_pySetAux (l : List String) :
    ∀ (acc : List String) (y : String),
      (y ∈ l.foldl (fun acc x => if acc.contains x then acc else acc ++ [x]) acc)
        ↔ (y ∈ acc ∨ y ∈ l) := by
  induction l with
  | nil => intro acc y; simp
  | cons x rest ih =>
    intro acc y
    simp only [List.foldl_cons]
    by_cases hx : x ∈ acc
    · rw [if_pos (contains_iff_mem.mpr hx)]
      rw [ih]
      simp only [List.mem_cons]
      constructor
      · rintro (h | h)
        · exact Or.inl h
        · exact Or.inr (Or.inr h)
      · rintro (h | h | h)
        · exact Or.inl h
        · subst h; exact Or.inl hx
        · exact Or.inr h
    · rw [if_neg (fun hc => hx (contains_iff_mem.mp hc))]
      rw [ih]
      simp only [List.mem_append, List.mem_singleton, List.mem_cons]
      tauto

theorem mem_pySet {l : List String} {y : String} : y ∈ pySet l ↔ y ∈ l := by
  rw [pySet, mem_pySetAux]
  simp

theorem foldl_pySet_const (m : String) :
    ∀ (r : List String), (∀ x ∈ r, x = m) →
      r.foldl (fun acc x => if acc.contains x then acc else acc ++ [x]) [m] = [m] := by
  intro r
  induction r with
  | nil => intro _; rfl
  | cons b bs ih =>
    intro hall
    have hb : b = m := hall b (by simp)
    subst hb
    simp only [List.foldl_cons]
    rw [if_pos (contains_iff_mem.mpr (by simp))]
    exact ih (fun x hx => hall x (by simp [hx]))

theorem pySet_all_eq {l : List String} {m : String} (hne : l ≠ [])
    (hall : ∀ x ∈ l, x = m) : pySet l = [m] := by
  rcases l with _ | ⟨a, rest⟩
  · exact absurd rfl hne
  · have ha : a = m := hall a (by simp)
    subst ha
    rw [pySet]
    simp only [List.foldl_cons]
    rw [if_neg (fun hc => by simp [List.contains] at hc)]
    simp only [List.nil_append]
    exact foldl_pySet_const a rest (fun x hx => hall x (by simp [hx]))

theorem pySet_ne_nil {l : List String} (h : l ≠ []) : pySet l ≠ [] := by
  rcases l with _ | ⟨a, rest⟩
  · exact absurd rfl h
  · intro hc
    have : a ∈ pySet (a :: rest) := mem_pySet.mpr (by simp)
    rw [hc] at this
    exact absurd this (List.not_mem_nil a)

/-- Jaccard similarity of two set-lists with equal membership is `n / n`
with `n ≥ 1`, which clears every threshold `c/d ≤ 1`. -/
theorem jaccard_same_mem_ge {a b : List String}
    (hmem : ∀ x, x ∈ a ↔ x ∈ b) (ha : a ≠ []) (hb : b ≠ [])
    (c d : Int) (hc : 0 ≤ c) (hcd : c ≤ d) (hd : 0 < d) :
    qLe (qDiv c d) (jaccard a b) = true := by
  have hfa : a.filter (fun x => b.contains x) = a := by
    rw [List.filter_eq_self]
    intro x hx
    exact contains_iff_mem.mpr ((hmem x).mp hx)
  have hfb : b.filter (fun x => !(a.contains x)) = [] := by
    rw [List.filter_eq_nil_iff]
    intro x hx
    rw [contains_iff_mem.mpr ((hmem x).mpr hx)]
    simp
  have hae : a.isEmpty = false := by
    rcases a with _ | _
    · exact absurd rfl ha
    · rfl
  have hbe : b.isEmpty = false := by
    rcases b with _ | _
    · exact absurd rfl hb
    · rfl
  have hlen : 1 ≤ a.length := by
    rcases a with _ | _
    · exact absurd rfl ha
    · simp
  rw [jaccard, hae, hbe]
  simp only [Bool.or_self, Bool.false_eq_true, if_false, hfa, hfb,
    List.length_nil, Nat.add_zero]
  rw [if_neg (by omega)]
  rw [qLe, qDiv, qDiv]
  simp only [decide_eq_true_eq]
  have hla : (1 : Int) ≤ (a.length : Int) := by exact_mod_cast hlen
  nlinarith

/-- The `Source` merge loop only appends: the existing list is a prefix of
the result. -/
theorem sourceFold_isPrefix (new : List String) :
    ∀ (acc : List String),
      acc <+: new.foldl (fun acc s => if acc.contains s then acc else acc ++ [s]) acc := by
  induction new with
  | nil => intro acc; exact List.prefix_refl acc
  | cons x rest ih =>
    intro acc
    simp only [List.foldl_cons]
    by_cases hx : acc.contains x = true
    · rw [if_pos hx]
      exact ih acc
    · rw [if_neg hx]
      exact List.IsPrefix.trans ⟨[x], rfl⟩ (ih (acc ++ [x]))

theorem foldl_id {α β : Type} : ∀ (l : List β) (a : α), l.foldl (fun x _ => x) a = a := by
  intro l
  induction l with
  | nil => intro a; rfl
  | cons x rest ih => intro a; simp only [List.foldl_cons]; exact ih a

theorem gatherCandidates_empty (bks : List (Nat × Nat)) (pk bs : String) :
    gatherCandidates emptyNewsEngine bks pk bs = [] := by
  simp only [gatherCandidates, emptyNewsEngine, alFind?_nil, Option.getD_none,
    List.append_nil, foldl_id, ite_self, List.nil_append]
  rfl

theorem step3Best_nil (s : NewsEngine) (t : String) (ts : Nat) (pk : String)
    (nd : Option Int) : step3Best s t ts pk nd [] = none := rfl

theorem summaryBest_empty (su : String) (d : Option Int) :
    summaryBest emptyNewsEngine su d = none := rfl

/-- The explicit state after inserting one observation into a fresh
engine: every match attempt misses on empty indexes, so the creation
branch runs. -/
def createFromEmpty (nd : NewsItem) : NewsEngine :=
  let title := charsToStr (pyStrip nd.title.data)
  let url := charsToStr (pyStrip nd.url.data)
  let date := charsToStr (pyStrip nd.date.data)
  let src := (if nd.source.isEmpty then [""] else nd.source).headD ""
  let summ := charsToStr (pyStrip nd.summary.data)
  let normTitle := normalize_title title
  let normUrl := normalize_url url
  let urlSig := if url ≠ "" then url_signature url else ""
  let ymd := if date ≠ "" then ddmmyyyyToYmd date else ""
  let domain := domain_of normUrl src
  let tKey := if normTitle ≠ "" then title_key normTitle ymd domain else ""
  let titleSha := if normTitle ≠ "" then sha1hex normTitle else ""
  let titleSim := if title ≠ "" then simhash_title64 title else 0
  let bandKeys := if titleSim ≠ 0 then simhash_bands titleSim simhash_bands_n else []
  let pfxKey := if title ≠ "" then title_pfx_key title title_pfx_k else ""
  let bowSig := if title ≠ "" then bow_signature title else ""
  let master := if normUrl ≠ "" then normUrl
    else "t:" ++ hash12 (if tKey ≠ "" then tKey else if normTitle ≠ "" then normTitle else url)
  let stored : StoredItem :=
    { item := { nd with itemId := master }
      simhashCache := if titleSim ≠ 0 then some titleSim else none
      sumSimhashCache := if summ ≠ "" then some (simhash64 (char_ngrams summ 3)) else none }
  { emptyNewsEngine with
    raw_items := [(master, stored)]
    idx_by_url := if normUrl ≠ "" then [(normUrl, master)] else []
    idx_by_url_sig := if urlSig ≠ "" then [(urlSig, master)] else []
    idx_by_title := if tKey ≠ "" then [(tKey, master)] else []
    idx_by_title_sha := if titleSha ≠ "" then [(titleSha, master)] else []
    idx_by_simhash_band := bandKeys.foldl (fun idx bk => bucketAppend idx bk master) []
    idx_by_title_pfx := if pfxKey ≠ "" then [(pfxKey, [master])] else []
    idx_by_bow_sig := if bowSig ≠ "" then [(bowSig, [master])] else [] }

theorem emptyNE_raw : emptyNewsEngine.raw_items = [] := rfl
theorem emptyNE_url : emptyNewsEngine.idx_by_url = [] := rfl
theorem emptyNE_url_sig : emptyNewsEngine.idx_by_url_sig = [] := rfl
theorem emptyNE_title : emptyNewsEngine.idx_by_title = [] := rfl
theorem emptyNE_title_sha : emptyNewsEngine.idx_by_title_sha = [] := rfl
theorem emptyNE_band : emptyNewsEngine.idx_by_simhash_band = [] := rfl
theorem emptyNE_pfx : emptyNewsEngine.idx_by_title_pfx = [] := rfl
theorem emptyNE_bow : emptyNewsEngine.idx_by_bow_sig = [] := rfl

theorem alSet_nil {κ α : Type} [DecidableEq κ] (k : κ) (v : α) :
    alSet ([] : List (κ × α)) k v = [(k, v)] := rfl

theorem add_empty (nd : NewsItem) :
    add_or_update_result emptyNewsEngine nd = createFromEmpty nd := by
  simp only [add_or_update_result, createFromEmpty, emptyNE_raw, emptyNE_url,
    emptyNE_url_sig, emptyNE_title, emptyNE_title_sha, emptyNE_band, emptyNE_pfx,
    emptyNE_bow, alFind?_nil, alSet_nil, ite_self, Option.none_orElse,
    gatherCandidates_empty, step3Best_nil, summaryBest_empty]
  rfl

/-! ## Claim C1 — engine snapshot round-trip -/

/-- An observation carrying only a URL (used in C1's counterexample). -/
def obsUrlOnly : NewsItem :=
  { itemId := "", source := ["gnews"], title := "", summary := "", year := none
    date := "", url := "http://x.com/a", language := none, needsEnrichment := true
    searchTimestamp := "" }

/-- C1 counterexample: a reachable engine state with a non-empty
URL-signature index.  `get_state_snapshot` omits that index entirely (it
stores only `idx_by_url` and `idx_by_title` beyond the record store and
provider sets), so a fresh engine that loads the snapshot has an empty
`idx_by_url_sig`: the claimed round-trip of every auxiliary index fails. -/
theorem C1_counterexample :
    load_state_snapshot emptyNewsEngine
        (get_state_snapshot (add_or_update_result emptyNewsEngine obsUrlOnly))
      ≠ add_or_update_result emptyNewsEngine obsUrlOnly
    ∧ (add_or_update_result emptyNewsEngine obsUrlOnly).idx_by_url_sig
        = [("x.com/a", "http://x.com/a")]
    ∧ (load_state_snapshot emptyNewsEngine
        (get_state_snapshot (add_or_update_result emptyNewsEngine obsUrlOnly))).idx_by_url_sig
      = [] := by decide

/-- C1 amended: loading the snapshot into a fresh engine reconstructs
exactly the persisted components — ids analysed, final results, the
canonical-record store `raw_items`, the five provider id sets, the
duplicate counter, the exact-URL index and the composite-title index —
while the URL-signature, title-hash, SimHash-band, title-prefix and
bag-of-words indexes are not part of the snapshot and come back empty. -/
theorem C1_snapshot_roundtrip (s : NewsEngine) :
    (load_state_snapshot emptyNewsEngine (get_state_snapshot s)).ia_analyzed_ids
        = s.ia_analyzed_ids
    ∧ (load_state_snapshot emptyNewsEngine (get_state_snapshot s)).final_results
        = s.final_results
    ∧ (load_state_snapshot emptyNewsEngine (get_state_snapshot s)).raw_items = s.raw_items
    ∧ (load_state_snapshot emptyNewsEngine (get_state_snapshot s)).gnews_ids = s.gnews_ids
    ∧ (load_state_snapshot emptyNewsEngine (get_state_snapshot s)).newsapi_ids = s.newsapi_ids
    ∧ (load_state_snapshot emptyNewsEngine (get_state_snapshot s)).serpapi_ids = s.serpapi_ids
    ∧ (load_state_snapshot emptyNewsEngine (get_state_snapshot s)).gdelt_ids = s.gdelt_ids
    ∧ (load_state_snapshot emptyNewsEngine (get_state_snapshot s)).newsdata_ids = s.newsdata_ids
    ∧ (load_state_snapshot emptyNewsEngine (get_state_snapshot s)).duplicate_count
        = s.duplicate_count
    ∧ (load_state_snapshot emptyNewsEngine (get_state_snapshot s)).idx_by_url = s.idx_by_url
    ∧ (load_state_snapshot emptyNewsEngine (get_state_snapshot s)).idx_by_title = s.idx_by_title
    ∧ (load_state_snapshot emptyNewsEngine (get_state_snapshot s)).idx_by_url_sig = []
    ∧ (load_state_snapshot emptyNewsEngine (get_state_snapshot s)).idx_by_title_sha = []
    ∧ (load_state_snapshot emptyNewsEngine (get_state_snapshot s)).idx_by_simhash_band = []
    ∧ (load_state_snapshot emptyNewsEngine (get_state_snapshot s)).idx_by_title_pfx = []
    ∧ (load_state_snapshot emptyNewsEngine (get_state_snapshot s)).idx_by_bow_sig = [] :=
  ⟨rfl, rfl, rfl, rfl, rfl, rfl, rfl, rfl, rfl, rfl, rfl, rfl, rfl, rfl, rfl, rfl⟩

/-! ## Claim C2 — resume with empty `remaining_keywords` -/

/-- A paused checkpoint whose keyword queue is empty (status `ERROR`). -/
def ckC2 : JFile :=
  [("version", .jint 3), ("category", .jstr "news"), ("status", .jstr "ERROR"),
   ("params", .jobj []), ("remaining_keywords", .jarr []), ("current_keyword", .jnull),
   ("cursors", .jobj []), ("analiced_ids", .jarr []), ("results", .jobj []),
   ("engine_state", .jnull),
   ("progress", .jobj [("total_keywords", .jint 0), ("processed_keywords", .jint 0)]),
   ("filter_stats", .jobj []), ("last_error", .jstr "ProviderRateLimitError"),
   ("last_saved_at", .jstr "2024-01-01T00:00:00Z")]

/-- C2 counterexample: resuming a checkpoint with an empty
`remaining_keywords` performs zero provider calls, but the branch ends in
`st.stop()` before `mark_completed` is ever reached, so the run keeps the
uploaded status (`ERROR` here) and never reaches `COMPLETED`. -/
theorem C2_counterexample :
    (resume_news ckC2 (fun _ => ProviderOutcome.ok) "T").searchCalls = 0
    ∧ asStr (jGetD (resume_news ckC2 (fun _ => ProviderOutcome.ok) "T").file
        "status" .jnull) = "ERROR"
    ∧ asStr (jGetD (resume_news ckC2 (fun _ => ProviderOutcome.ok) "T").file
        "status" .jnull) ≠ "COMPLETED"
    ∧ (resume_news ckC2 (fun _ => ProviderOutcome.ok) "T").markCompletedCalled = false := by
  refine ⟨rfl, rfl, ?_, rfl⟩
  decide

/-- C2 amended: for every checkpoint whose `remaining_keywords` is empty,
the resume branch performs zero provider search calls and stops
immediately, leaving the checkpoint file untouched — in particular
`mark_completed` is not called and the persisted status stays whatever the
checkpoint carried. -/
theorem C2_empty_resume (sf : JFile) (outcomes : String → ProviderOutcome) (now : String)
    (h : asStrList (jGetD sf "remaining_keywords" (.jarr [])) = []) :
    resume_news sf outcomes now
      = { file := sf, searchCalls := 0, markCompletedCalled := false
          stoppedEarly := true } := by
  simp [resume_news, h]

/-- C2 witness: the amended theorem applied to the concrete `ERROR`
checkpoint above. -/
theorem C2_empty_resume_witness :
    resume_news ckC2 (fun _ => ProviderOutcome.ok) "T"
      = { file := ckC2, searchCalls := 0, markCompletedCalled := false
          stoppedEarly := true } :=
  C2_empty_resume ckC2 (fun _ => ProviderOutcome.ok) "T" rfl

/-! ## Claim C9 — relevance red line short-circuits the cascade -/

/-- C9: an item that reaches the automotive heuristic (its year passed the
range gate) and scores below the red-line cutoff is recorded as a drop by
the `automotive_filter` gate, and neither the incident filter nor the
ensemble classification gate is invoked for it. -/
theorem C9_redline_drop (y : Int) (heurScore : Int) (incident : IncidentVerdict)
    (alreadyAnalyzed applyIA iaRejects : Bool)
    (hy1 : 2020 ≤ y) (hy2 : y ≤ 2025) (hs : heurScore < cutoff_red) :
    filter_process_news_item (some y) heurScore incident alreadyAnalyzed applyIA iaRejects
      = { decision := some "drop", decisionGate := some "automotive_filter"
          droppedAutoLogged := true, droppedIncidentLogged := false
          incidentInvoked := false, iaInvoked := false
          savedToFinal := false, skippedByYear := false } := by
  simp [filter_process_news_item, hy1, hy2, hs]

/-- C9 witness: a 2024 item scored 0 by the heuristic. -/
theorem C9_redline_drop_witness :
    filter_process_news_item (some 2024) 0 ⟨true, 9, none, []⟩ false true false
      = { decision := some "drop", decisionGate := some "automotive_filter"
          droppedAutoLogged := true, droppedIncidentLogged := false
          incidentInvoked := false, iaInvoked := false
          savedToFinal := false, skippedByYear := false } :=
  C9_redline_drop 2024 0 ⟨true, 9, none, []⟩ false true false
    (by decide) (by decide) (by decide)

/-! ## Claim C6 — all-empty-signal observations -/

theorem charsToStr_nil : charsToStr [] = "" := rfl

theorem normalize_title_empty : normalize_title "" = "" := by decide

theorem normalize_url_empty : normalize_url "" = "" := by decide

/-- C6 amended: `add_or_update_result` is a total function (the embedding
never raises), and an observation whose title, URL and summary are all
blank is filed under the one constant synthetic key
`"t:" ++ hash12 ""` — the hash of the empty fallback `t_key or norm_title
or url` — replacing whatever record already sits under that key.  Distinct
all-empty-signal observations therefore collapse into a single stored
record instead of each getting their own. -/
theorem C6_all_empty_key (s : NewsEngine) (nd : NewsItem)
    (ht : pyStrip nd.title.data = []) (hu : pyStrip nd.url.data = [])
    (hsm : pyStrip nd.summary.data = []) :
    add_or_update_result s nd
      = { s with raw_items := (alSet s.raw_items ("t:" ++ hash12 "")
          ⟨{ nd with itemId := "t:" ++ hash12 "" }, none, none⟩) } := by
  simp [add_or_update_result, ht, hu, hsm, charsToStr_nil, normalize_title_empty,
    normalize_url_empty, enable_summary_fallback]

/-- C6 witness: the amended theorem applied to a concrete all-empty
observation inserted into the fresh engine. -/
theorem C6_all_empty_key_witness :
    add_or_update_result emptyNewsEngine (obsBare "gnews")
      = { emptyNewsEngine with
          raw_items := (alSet emptyNewsEngine.raw_items ("t:" ++ hash12 "")
            ⟨{ obsBare "gnews" with itemId := "t:" ++ hash12 "" }, none, none⟩) } :=
  C6_all_empty_key emptyNewsEngine (obsBare "gnews") rfl rfl rfl

/-- C6 counterexample: two distinct all-empty-signal observations (they
differ in their `Source`) do not get distinct canonical records — both land
on the constant synthetic key and the second replaces the first, whose
source list is gone afterwards. -/
theorem C6_counterexample :
    ((add_or_update_result (add_or_update_result emptyNewsEngine (obsBare "gnews"))
        (obsBare "newsapi")).raw_items.map Prod.fst = ["t:" ++ hash12 ""])
    ∧ ((add_or_update_result (add_or_update_result emptyNewsEngine (obsBare "gnews"))
        (obsBare "newsapi")).raw_items.map (fun kv => kv.2.item.source) = [["newsapi"]])
    ∧ obsBare "gnews" ≠ obsBare "newsapi" := by decide

/-! ## Claim C7 — merges never lose sources -/

/-- C7 amended: merging observation `B` into canonical record `A` never
removes a source (`A.Sources` stays a prefix of the merged list) and never
shrinks it; when `A.Sources` is non-empty — as for every record the
pipeline itself creates — the claimed bound
`len(merged.Sources) ≥ max(len(A.Sources), 1)` also holds.  (When both
source lists are empty the merged list is empty, so the `max … 1` bound
fails; see the counterexample.) -/
theorem C7_sources_grow (ex : StoredItem) (nd : NewsItem) :
    ex.item.source <+: (mergeStored ex nd).item.source
    ∧ ex.item.source.length ≤ (mergeStored ex nd).item.source.length
    ∧ (ex.item.source ≠ [] →
        max ex.item.source.length 1 ≤ (mergeStored ex nd).item.source.length) := by
  have hpre : ex.item.source <+: (mergeStored ex nd).item.source := by
    simp only [mergeStored]
    by_cases hsrc : nd.source.isEmpty
    · rw [if_pos hsrc]
    · rw [if_neg hsrc]
      exact sourceFold_isPrefix nd.source ex.item.source
  refine ⟨hpre, hpre.length_le, ?_⟩
  intro hne
  have h1 : 1 ≤ ex.item.source.length := List.length_pos.mpr hne
  have h2 := hpre.length_le
  omega

/-- C7 witness: a record with one source merged with a two-source
observation keeps its source and the bound holds. -/
theorem C7_sources_grow_witness :
    ({ item := obsBare "gnews", simhashCache := none,
       sumSimhashCache := none } : StoredItem).item.source
        <+: (mergeStored ⟨obsBare "gnews", none, none⟩ (obsBare "newsapi")).item.source
    ∧ (⟨obsBare "gnews", none, none⟩ : StoredItem).item.source.length
        ≤ (mergeStored ⟨obsBare "gnews", none, none⟩ (obsBare "newsapi")).item.source.length
    ∧ max (⟨obsBare "gnews", none, none⟩ : StoredItem).item.source.length 1
        ≤ (mergeStored ⟨obsBare "gnews", none, none⟩ (obsBare "newsapi")).item.source.length := by
  have h := C7_sources_grow ⟨obsBare "gnews", none, none⟩ (obsBare "newsapi")
  exact ⟨h.1, h.2.1, h.2.2 (by decide)⟩

/-- A source-less observation carrying only a URL (C7's counterexample). -/
def obsUrlNoSource : NewsItem :=
  { itemId := "", source := [], title := "", summary := "", year := none
    date := "", url := "http://x.com/a", language := none, needsEnrichment := true
    searchTimestamp := "" }

/-- C7 counterexample: inserting two source-less observations with the same
URL makes the second merge into the first (`duplicate_count = 1`), and the
merged record's source list is empty — so `len(merged.Sources) = 0` falls
short of the claimed `max(len(A.Sources), 1) = 1`. -/
theorem C7_counterexample :
    ((add_or_update_result (add_or_update_result emptyNewsEngine obsUrlNoSource)
        obsUrlNoSource).raw_items.map (fun kv => kv.2.item.source) = [[]])
    ∧ (add_or_update_result (add_or_update_result emptyNewsEngine obsUrlNoSource)
        obsUrlNoSource).duplicate_count = 1 := by decide

/-! ## Claim C8 — the Summary placeholder rule -/

/-- C8: in every merge the stored `Summary` is overwritten exactly when the
incoming value is non-empty, the existing value (stripped, lowered) is
empty or a known placeholder — equal to `"no abstract"` or containing
`"not available"` / `"no disponible"` — and the incoming value (stripped,
lowered) is non-blank, does not start with `"no abstract"` and contains
neither placeholder marker; in every other case the existing `Summary` is
unchanged. -/
theorem C8_summary_rule (ex : StoredItem) (nd : NewsItem) :
    (mergeStored ex nd).item.summary
      = (if (nd.summary ≠ "" && summaryPrevReplaceable ex.item.summary
            && summaryNewAcceptable nd.summary) = true
        then nd.summary else ex.item.summary)
    ∧ ((mergeStored ex nd).item.summary ≠ ex.item.summary →
        summaryPrevReplaceable ex.item.summary = true
        ∧ summaryNewAcceptable nd.summary = true
        ∧ (mergeStored ex nd).item.summary = nd.summary) := by
  constructor
  · rfl
  · intro hne
    by_cases hcond : (nd.summary ≠ "" && summaryPrevReplaceable ex.item.summary
        && summaryNewAcceptable nd.summary) = true
    · have h1 : summaryPrevReplaceable ex.item.summary = true := by
        rcases Bool.and_eq_true_iff.mp hcond with ⟨h12, _⟩
        exact (Bool.and_eq_true_iff.mp h12).2
      have h2 : summaryNewAcceptable nd.summary = true :=
        (Bool.and_eq_true_iff.mp hcond).2
      refine ⟨h1, h2, ?_⟩
      show (if _ then nd.summary else ex.item.summary) = nd.summary
      rw [if_pos hcond]
    · exact absurd (by
        show (if _ then nd.summary else ex.item.summary) = ex.item.summary
        rw [if_neg hcond]) hne

/-- C8 witness: a placeholder summary is replaced by a real one. -/
theorem C8_summary_rule_witness :
    (mergeStored ⟨{ obsBare "g" with summary := "No abstract" }, none, none⟩
        { obsBare "n" with summary := "A real summary." }).item.summary
      = "A real summary."
    ∧ summaryPrevReplaceable "No abstract" = true
    ∧ summaryNewAcceptable "A real summary." = true := by
  have h := C8_summary_rule ⟨{ obsBare "g" with summary := "No abstract" }, none, none⟩
    { obsBare "n" with summary := "A real summary." }
  have h2 := h.2 (by decide)
  exact ⟨h2.2.2, h2.1, h2.2.1⟩

/-! ## Claim C3 — checkpoint save/load/re-save round trip -/
theorem map_jstr_asStr (l : List String) : (l.map JVal.jstr).map asStr = l := by
  induction l with
  | nil => rfl
  | cons h t ih => simp [asStr, ih]

theorem jOrEmptyObj_idem (x : Option JVal) :
    jOrEmptyObj (some (jOrEmptyObj x)) = jOrEmptyObj x := by
  cases x with
  | none => rfl
  | some v =>
    cases v with
    | jnull => rfl
    | jbool b => rfl
    | jstr s => rfl
    | jint n => rfl
    | jarr xs => rfl
    | jobj kvs => cases kvs with | nil => rfl | cons h t => rfl

/-- A checkpoint as written by `save_state` with no extra kwargs. -/
def ckC3 (category : String) (rk : List String) (results engine_state : JVal)
    (aids : List String) (fstats : Option JVal) (now1 : String) : JFile :=
  save_state category (some rk) (some results) engine_state (some aids) fstats [] now1

theorem ckC3_explicit (category : String) (rk : List String)
    (results engine_state : JVal) (aids : List String) (fstats : Option JVal)
    (now1 : String) :
    ckC3 category rk results engine_state aids fstats now1
      = [("version", .jint 3),
         ("category", .jstr category),
         ("status", .jstr "RUNNING"),
         ("params", .jobj []),
         ("remaining_keywords", .jarr (rk.map .jstr)),
         ("current_keyword", .jnull),
         ("cursors", .jobj []),
         ("analiced_ids", .jarr (aids.map .jstr)),
         ("results", results),
         ("engine_state", engine_state),
         ("progress", .jobj
           [("total_keywords", .jint (if rk.isEmpty then 0 else (rk.length : Int))),
            ("processed_keywords", .jint 0)]),
         ("filter_stats", jOrEmptyObj fstats),
         ("last_error", .jnull),
         ("last_saved_at", .jstr now1)] := by
  simp [ckC3, save_state, jGetD, alFind?]

theorem jSetdefault_present (st : JFile) (k : String) (v : JVal)
    (h : (alFind? st k).isSome = true) : jSetdefault st k v = st := by
  simp [jSetdefault, h]

theorem load_state_all_present (st : JFile) (nowL : String)
    (h1 : (alFind? st "version").isSome = true)
    (h2 : (alFind? st "status").isSome = true)
    (h3 : (alFind? st "params").isSome = true)
    (h4 : (alFind? st "current_keyword").isSome = true)
    (h5 : (alFind? st "cursors").isSome = true)
    (h6 : (alFind? st "analiced_ids").isSome = true)
    (h7 : (alFind? st "results").isSome = true)
    (h8 : (alFind? st "filter_stats").isSome = true)
    (h9 : (alFind? st "engine_state").isSome = true)
    (hp : (alFind? st "progress").isSome = true)
    (h10 : (alFind? st "last_error").isSome = true)
    (h11 : (alFind? st "last_saved_at").isSome = true) :
    load_state (some st) nowL = some st := by
  simp only [load_state]
  rw [jSetdefault_present _ _ _ h1, jSetdefault_present _ _ _ h2,
      jSetdefault_present _ _ _ h3, jSetdefault_present _ _ _ h4,
      jSetdefault_present _ _ _ h5, jSetdefault_present _ _ _ h6,
      jSetdefault_present _ _ _ h7, jSetdefault_present _ _ _ h8,
      jSetdefault_present _ _ _ h9, if_pos hp,
      jSetdefault_present _ _ _ h10, jSetdefault_present _ _ _ h11]

/-- C3 counterexample: the claim fails for checkpoints written by
`init_state`, because `init_state` lists `filter_stats` before `progress`
while `save_state` lists `progress` before `filter_stats`.  Loading an
`init_state` file and re-saving it therefore reorders the keys — the JSON
text differs beyond `last_saved_at` even when re-saved with the very same
timestamp. -/
theorem C3_counterexample :
    (load_state (some (init_state "news" (some ["kw"]) none "T0")) "T1").isSome = true
    ∧ jKeys (resaveLoaded
        ((load_state (some (init_state "news" (some ["kw"]) none "T0")) "T1").getD [])
        "T0")
      ≠ jKeys (init_state "news" (some ["kw"]) none "T0") := by decide

/-- C3 amended: for checkpoints written by `save_state` (with no extra
kwargs) the round trip does hold — `load_state` returns the file unchanged,
and re-saving every loaded field without mutation reproduces the file
exactly, except that `last_saved_at` carries the new timestamp. -/
theorem C3_resave_roundtrip (category : String) (rk : List String)
    (results engine_state : JVal) (aids : List String) (fstats : Option JVal)
    (now1 nowL now2 : String) :
    load_state (some (ckC3 category rk results engine_state aids fstats now1)) nowL
      = some (ckC3 category rk results engine_state aids fstats now1)
    ∧ resaveLoaded (ckC3 category rk results engine_state aids fstats now1) now2
      = alSet (ckC3 category rk results engine_state aids fstats now1)
          "last_saved_at" (.jstr now2) := by
  constructor
  · rw [ckC3_explicit]
    exact load_state_all_present _ nowL rfl rfl rfl rfl rfl rfl rfl rfl rfl rfl rfl rfl
  · simp [ckC3_explicit, resaveLoaded, save_state, jGetD, alFind?, alSet,
      map_jstr_asStr, jOrEmptyObj_idem, asStr, asStrList]

/-! ## Claim C10 — negative-only texts are always rejected -/

theorem bi_nonneg (b : Bool) (w : Int) (hw : 0 ≤ w) : 0 ≤ bi b w := by
  cases b <;> simp [bi] <;> omega

/-- C10: if a text matches none of the eleven positively weighted
categories (`attack_confirmed`, `ransomware`, `data_theft`, `disruption`,
`targets_auto`, `insider`, `quantifiers`, `portal_abuse`, `remote_control`,
`vuln_found`, the brand scan `company`) — whatever negative categories,
context regexes and mode apply — `classify` returns `keep = False`:
every override is dominated by the penalty it refunds, so the score cannot
exceed 0, while the effective threshold never drops below 5. -/
theorem C10_negative_only (mode : IncidentMode) (t : IncidentText)
    (h1 : t.attackConfirmed = false) (h2 : t.ransomware = false)
    (h3 : t.dataTheft = false) (h4 : t.disruption = false)
    (h5 : t.targetsAuto = false) (h6 : t.insider = false)
    (h7 : t.quantifiers = false) (h8 : t.portalAbuse = false)
    (h9 : t.remoteControl = false) (h10 : t.vulnFound = false)
    (h11 : t.company = false) :
    (incident_classify mode t).1 = false := by
  have hw : 0 < wneg_hypothetical mode := by cases mode <;> decide
  have hpos : incPosScore t = 0 := by
    simp [incPosScore, bi, h1, h2, h3, h4, h5, h6, h7, h8, h9, h10, h11]
  have hsyn : incSynergies t = 0 := by
    simp [incSynergies, bi, h1, h3, h5, h8, h9, h10, h11]
  have hrout : incRoutineOverride t = 0 := by
    simp [incRoutineOverride, bi, h10]
  have hcond : 0 ≤ incCondNeg t := by
    have a1 : (0:Int) ≤ bi (t.nonautoOutage && !incAutoContext t) 3 :=
      bi_nonneg _ _ (by omega)
    have a2 : (0:Int) ≤ bi (t.adLure && !incAutoContext t) 2 :=
      bi_nonneg _ _ (by omega)
    unfold incCondNeg
    omega
  have hhyp : incHypOverride mode t ≤ bi t.hypothetical (wneg_hypothetical mode) := by
    unfold incHypOverride
    cases hhy : t.hypothetical
    · simp [bi]
    · simp only [bi, if_true, h1, h2, h3, h4, Bool.false_or, Bool.or_false,
        incBrandTarget, h5, h11, Bool.and_false, if_false]
      split_ifs <;> omega
  have hroundup : incRoundupOverride t ≤ bi t.roundupStructure 3 := by
    unfold incRoundupOverride
    cases hr : t.roundupStructure
    · simp [bi]
    · simp only [Bool.and_true, bi]
      split_ifs <;> decide
  have hneg : bi t.hypothetical (wneg_hypothetical mode) + bi t.roundupStructure 3
      ≤ incNegScore mode t := by
    have a1 : (0:Int) ≤ bi t.routineVuln 4 := bi_nonneg _ _ (by omega)
    have a2 : (0:Int) ≤ bi t.unconfirmed 6 := bi_nonneg _ _ (by omega)
    have a3 : (0:Int) ≤ bi t.denialNoimpact 6 := bi_nonneg _ _ (by omega)
    have a4 : (0:Int) ≤ bi t.advisoryOnly 3 := bi_nonneg _ _ (by omega)
    have a5 : (0:Int) ≤ bi t.lifehackNoise 3 := bi_nonneg _ _ (by omega)
    have a6 : (0:Int) ≤ bi t.unrelated 4 := bi_nonneg _ _ (by omega)
    have a7 : (0:Int) ≤ bi t.marketNoise 3 := bi_nonneg _ _ (by omega)
    unfold incNegScore
    omega
  have hscore : incScore mode t ≤ 0 := by
    unfold incScore
    rw [hpos, hsyn, hrout]
    omega
  have hk : 5 ≤ incKeepMinEff mode t := by
    simp only [incKeepMinEff, h3, h2, h9, h8, h5, h11, Bool.false_and,
      Bool.and_false, Bool.false_or, Bool.or_false, if_false]
    cases mode <;> decide
  simp only [incident_classify]
  by_cases hhard : ((t.unconfirmed || t.denialNoimpact) && !incStrong0 t) = true
  · rw [if_pos hhard]
  · rw [if_neg hhard]
    have hdec : decide (incKeepMinEff mode t ≤ incScore mode t) = false := by
      rw [decide_eq_false_iff_not]
      omega
    simp [hdec]

/-- A text matching only negative categories: `unconfirmed`, `unrelated`,
`hypothetical` and the roundup structure, with an automotive-context regex
hit but no positive category. -/
def tC10 : IncidentText :=
  { attackConfirmed := false, ransomware := false, dataTheft := false
    disruption := false, targetsAuto := false, insider := false
    quantifiers := false, portalAbuse := false, remoteControl := false
    vulnFound := false, company := false, hypothetical := true
    routineVuln := false, unconfirmed := true, denialNoimpact := false
    advisoryOnly := false, nonautoOutage := false, lifehackNoise := false
    roundupStructure := true, unrelated := true, marketNoise := false
    adLure := false, autoContextRx := true, rePortalRx := false
    reRemoteRx := false, reExploitRx := false, plantOrOpsRx := false
    keylessRx := false }

/-- C10 witness: the theorem applied to a concrete negative-only text in
standard mode. -/
theorem C10_negative_only_witness :
    (incident_classify .standard tC10).1 = false :=
  C10_negative_only .standard tC10 rfl rfl rfl rfl rfl rfl rfl rfl rfl rfl rfl

/-! ## Claims C4 and C5 — URL-equality and bag-of-words matching -/

/-- A title-and-date observation with one source name. -/
def obsT (t d srcName : String) : NewsItem :=
  { itemId := "", source := [srcName], title := t, summary := "", year := some 2024
    date := d, url := "", language := none, needsEnrichment := true
    searchTimestamp := "" }

theorem alFind?_cons_self {κ α : Type} [DecidableEq κ] (k : κ) (v : α)
    (rest : List (κ × α)) : alFind? ((k, v) :: rest) k = some v := by
  simp [alFind?]

theorem alFind?_singleton_ne {κ α : Type} [DecidableEq κ] {a b : κ} (v : α)
    (h : a ≠ b) : alFind? [(a, v)] b = none := by
  simp [alFind?, h]

theorem alSet_map_fst {κ α : Type} [DecidableEq κ] (l : List (κ × α)) (k : κ) (v : α)
    (h : (alFind? l k).isSome = true) :
    (alSet l k v).map Prod.fst = l.map Prod.fst := by
  induction l with
  | nil => simp [alFind?] at h
  | cons p rest ih =>
    by_cases hk : p.1 = k
    · simp [alSet, hk]
    · simp only [alFind?, hk, if_neg, ite_false] at h
      simp [alSet, hk, ih h]

theorem add_url_hit (s : NewsEngine) (nd : NewsItem) (u m : String)
    (hu : normalize_url (charsToStr (pyStrip nd.url.data)) = u) (hne : u ≠ "")
    (hidx : alFind? s.idx_by_url u = some m)
    (hraw : (alFind? s.raw_items m).isSome = true) :
    (add_or_update_result s nd).raw_items.map Prod.fst = s.raw_items.map Prod.fst
    ∧ (add_or_update_result s nd).duplicate_count = s.duplicate_count + 1 := by
  obtain ⟨st, hst⟩ := Option.isSome_iff_exists.mp hraw
  simp only [add_or_update_result, hu, hne, ne_eq, not_false_iff, if_true, hidx,
    Option.some_orElse, hst]
  exact ⟨alSet_map_fst _ _ _ hraw, trivial⟩

theorem createFromEmpty_url_idx (nd : NewsItem)
    (h : normalize_url (charsToStr (pyStrip nd.url.data)) ≠ "") :
    (createFromEmpty nd).idx_by_url
      = [(normalize_url (charsToStr (pyStrip nd.url.data)),
          normalize_url (charsToStr (pyStrip nd.url.data)))] := by
  simp [createFromEmpty, h]

theorem createFromEmpty_raw_fst (nd : NewsItem)
    (h : normalize_url (charsToStr (pyStrip nd.url.data)) ≠ "") :
    (createFromEmpty nd).raw_items.map Prod.fst
      = [normalize_url (charsToStr (pyStrip nd.url.data))] := by
  simp [createFromEmpty, h]

theorem createFromEmpty_raw_isSome (nd : NewsItem)
    (h : normalize_url (charsToStr (pyStrip nd.url.data)) ≠ "") :
    (alFind? (createFromEmpty nd).raw_items
        (normalize_url (charsToStr (pyStrip nd.url.data)))).isSome = true := by
  simp [createFromEmpty, alFind?, h]

theorem createFromEmpty_dup (nd : NewsItem) : (createFromEmpty nd).duplicate_count = 0 :=
  rfl

/-- C4 amended: for two observations whose normalized URLs are equal and
NON-EMPTY, inserting the second after the first (into a fresh engine)
takes the exact-URL match path: the canonical key set is unchanged — still
exactly the first record's key — and the duplicate counter increments, so
no second canonical record is created.  (When the equal normalized URLs
are empty the URL index is never consulted and the claim fails; see the
counterexample.) -/
theorem C4_url_match (nd1 nd2 : NewsItem)
    (heq : normalize_url (charsToStr (pyStrip nd1.url.data))
        = normalize_url (charsToStr (pyStrip nd2.url.data)))
    (hne : normalize_url (charsToStr (pyStrip nd1.url.data)) ≠ "") :
    ((add_or_update_result (add_or_update_result emptyNewsEngine nd1) nd2).raw_items.map
        Prod.fst = [normalize_url (charsToStr (pyStrip nd1.url.data))])
    ∧ (add_or_update_result (add_or_update_result emptyNewsEngine nd1) nd2).duplicate_count
        = 1 := by
  rw [add_empty]
  have hidx : alFind? (createFromEmpty nd1).idx_by_url
      (normalize_url (charsToStr (pyStrip nd1.url.data)))
      = some (normalize_url (charsToStr (pyStrip nd1.url.data))) := by
    rw [createFromEmpty_url_idx nd1 hne]
    simp [alFind?]
  have h := add_url_hit (createFromEmpty nd1) nd2
    (normalize_url (charsToStr (pyStrip nd1.url.data)))
    (normalize_url (charsToStr (pyStrip nd1.url.data)))
    heq.symm hne hidx (createFromEmpty_raw_isSome nd1 hne)
  refine ⟨?_, ?_⟩
  · rw [h.1, createFromEmpty_raw_fst nd1 hne]
  · rw [h.2, createFromEmpty_dup]

theorem charsToStr_data (s : String) : charsToStr s.data = s := rfl

theorem strip_empty : charsToStr (pyStrip "".data) = "" := by decide

theorem pyStrip_nil : pyStrip [] = [] := rfl

theorem charsToStr_nil' : charsToStr [] = "" := rfl

theorem normalize_url_empty_s : normalize_url "" = "" := by decide

theorem title_key_ne (a b c : String) : title_key a b c ≠ "" := by
  intro h
  have hd := congrArg String.data h
  simp [title_key] at hd

theorem sha1hex_ne (s : String) : sha1hex s ≠ "" := by
  intro h
  have hd := congrArg String.data h
  simp [sha1hex] at hd

theorem sha1hex_ne_of_ne {a b : String} (h : a ≠ b) : sha1hex a ≠ sha1hex b := by
  intro hc
  apply h
  have hd := congrArg String.data hc
  simp [sha1hex] at hd
  exact congrArg charsToStr hd

def masterT (t d src : String) : String :=
  "t:" ++ hash12 (title_key (normalize_title t)
    (if d ≠ "" then ddmmyyyyToYmd d else "") (domain_of "" src))

def storedT (t d src : String) : StoredItem :=
  { item := { obsT t d src with itemId := masterT t d src }
    simhashCache := some (simhash_title64 t)
    sumSimhashCache := none }

theorem createT_raw (t d src : String)
    (h1 : pyStrip t.data = t.data) (h3 : pyStrip d.data = d.data)
    (h5 : t ≠ "") (h7 : normalize_title t ≠ "") (h12 : simhash_title64 t ≠ 0) :
    (createFromEmpty (obsT t d src)).raw_items = [(masterT t d src, storedT t d src)] := by
  simp [createFromEmpty, obsT, masterT, storedT, h1, h3, h5, h7, h12,
    charsToStr_data, strip_empty, pyStrip_nil, charsToStr_nil',
    normalize_url_empty_s, title_key_ne]

theorem createT_sha (t d src : String)
    (h1 : pyStrip t.data = t.data) (h3 : pyStrip d.data = d.data)
    (h5 : t ≠ "") (h7 : normalize_title t ≠ "") :
    (createFromEmpty (obsT t d src)).idx_by_title_sha
      = [(sha1hex (normalize_title t), masterT t d src)] := by
  simp [createFromEmpty, obsT, masterT, h1, h3, h5, h7,
    charsToStr_data, strip_empty, pyStrip_nil, charsToStr_nil',
    normalize_url_empty_s, title_key_ne, sha1hex_ne]

theorem createT_bow (t d src : String)
    (h1 : pyStrip t.data = t.data) (h3 : pyStrip d.data = d.data)
    (h5 : t ≠ "") (h7 : normalize_title t ≠ "") (h16 : bow_signature t ≠ "") :
    (createFromEmpty (obsT t d src)).idx_by_bow_sig
      = [(bow_signature t, [masterT t d src])] := by
  simp [createFromEmpty, obsT, masterT, h1, h3, h5, h7, h16,
    charsToStr_data, strip_empty, pyStrip_nil, charsToStr_nil',
    normalize_url_empty_s, title_key_ne]

theorem createT_dup (t d src : String) :
    (createFromEmpty (obsT t d src)).duplicate_count = 0 := rfl

theorem mem_alSet {κ α : Type} [DecidableEq κ] (l : List (κ × α)) (k : κ) (v : α)
    (kv : κ × α) (h : kv ∈ alSet l k v) : kv = (k, v) ∨ kv ∈ l := by
  induction l with
  | nil => simp [alSet] at h; simp [h]
  | cons p rest ih =>
    by_cases hk : p.1 = k
    · rw [alSet, if_pos hk] at h
      rcases List.mem_cons.mp h with h | h
      · left; rw [h, hk]
      · right; exact List.mem_cons_of_mem p h
    · rw [alSet, if_neg hk] at h
      rcases List.mem_cons.mp h with h | h
      · right; rw [h]; exact List.mem_cons_self p rest
      · rcases ih h with h | h
        · left; exact h
        · right; exact List.mem_cons_of_mem p h

theorem alFind?_mem {κ α : Type} [DecidableEq κ] (l : List (κ × α)) (k : κ) (v : α)
    (h : alFind? l k = some v) : (k, v) ∈ l := by
  induction l with
  | nil => simp [alFind?] at h
  | cons p rest ih =>
    by_cases hk : p.1 = k
    · rw [alFind?, if_pos hk] at h
      have : p = (k, v) := by
        rcases p with ⟨pk, pv⟩
        simp at hk h
        simp [hk, h]
      rw [← this]; exact List.mem_cons_self p rest
    · rw [alFind?, if_neg hk] at h
      exact List.mem_cons_of_mem p (ih h)

theorem getD_all {κ : Type} [DecidableEq κ] {idx : List (κ × List String)} {m : String}
    (hall : ∀ kv ∈ idx, ∀ x ∈ kv.2, x = m) (k : κ) :
    ∀ x ∈ (alFind? idx k).getD [], x = m := by
  cases hf : alFind? idx k with
  | none => simp
  | some l =>
    simp only [Option.getD_some]
    exact hall (k, l) (alFind?_mem idx k l hf)

theorem bucketFold_all {κ : Type} [DecidableEq κ] (m : String) (bks : List κ) :
    ∀ (idx : List (κ × List String)), (∀ kv ∈ idx, ∀ x ∈ kv.2, x = m) →
      ∀ kv ∈ bks.foldl (fun idx bk => bucketAppend idx bk m) idx, ∀ x ∈ kv.2, x = m := by
  induction bks with
  | nil => intro idx h; exact h
  | cons b rest ih =>
    intro idx h
    simp only [List.foldl_cons]
    apply ih
    intro kv hkv x hx
    rcases mem_alSet _ _ _ _ hkv with hkv | hkv
    · rw [hkv] at hx
      rcases List.mem_append.mp hx with hx | hx
      · exact getD_all h b x hx
      · simpa using hx
    · exact h kv hkv x hx

theorem createT_band_all (t d src : String)
    (h1 : pyStrip t.data = t.data) (h3 : pyStrip d.data = d.data)
    (h5 : t ≠ "") (h7 : normalize_title t ≠ "") (h12 : simhash_title64 t ≠ 0) :
    ∀ kv ∈ (createFromEmpty (obsT t d src)).idx_by_simhash_band,
      ∀ x ∈ kv.2, x = masterT t d src := by
  have hidx : (createFromEmpty (obsT t d src)).idx_by_simhash_band
      = (simhash_bands (simhash_title64 t) simhash_bands_n).foldl
          (fun idx bk => bucketAppend idx bk (masterT t d src)) [] := by
    simp [createFromEmpty, obsT, masterT, h1, h3, h5, h7, h12,
      charsToStr_data, strip_empty, pyStrip_nil, charsToStr_nil',
      normalize_url_empty_s, title_key_ne]
  rw [hidx]
  exact bucketFold_all _ _ [] (by simp)

theorem createT_pfx_all (t d src : String)
    (h1 : pyStrip t.data = t.data) (h3 : pyStrip d.data = d.data)
    (h5 : t ≠ "") (h7 : normalize_title t ≠ "") :
    ∀ kv ∈ (createFromEmpty (obsT t d src)).idx_by_title_pfx,
      ∀ x ∈ kv.2, x = masterT t d src := by
  have hidx : (createFromEmpty (obsT t d src)).idx_by_title_pfx
      = (if title_pfx_key t title_pfx_k ≠ "" then
          [(title_pfx_key t title_pfx_k, [masterT t d src])] else []) := by
    simp [createFromEmpty, obsT, masterT, h1, h3, h5, h7,
      charsToStr_data, strip_empty, pyStrip_nil, charsToStr_nil',
      normalize_url_empty_s, title_key_ne]
  rw [hidx]
  split
  · intro kv hkv x hx
    simp only [List.mem_singleton] at hkv
    subst hkv
    simpa using hx
  · simp

theorem foldl_append_all {κ : Type} (m : String) (g : κ → List String)
    (hg : ∀ bk, ∀ x ∈ g bk, x = m) (bks : List κ) :
    ∀ acc, (∀ x ∈ acc, x = m) →
      ∀ x ∈ bks.foldl (fun acc bk => acc ++ g bk) acc, x = m := by
  induction bks with
  | nil => intro acc h; exact h
  | cons b rest ih =>
    intro acc h
    simp only [List.foldl_cons]
    apply ih
    intro x hx
    rcases List.mem_append.mp hx with hx | hx
    · exact h x hx
    · exact hg b x hx

theorem gatherT (s : NewsEngine) (m : String) (bks : List (Nat × Nat)) (pfx bow : String)
    (hband : ∀ kv ∈ s.idx_by_simhash_band, ∀ x ∈ kv.2, x = m)
    (hpfx : ∀ kv ∈ s.idx_by_title_pfx, ∀ x ∈ kv.2, x = m)
    (hbow : alFind? s.idx_by_bow_sig bow = some [m])
    (hbowne : bow ≠ "") :
    gatherCandidates s bks pfx bow = [m] := by
  simp only [gatherCandidates, hbowne, ne_eq, not_false_iff, if_true, hbow,
    Option.getD_some]
  apply pySet_all_eq
  · simp
  · intro x hx
    rcases List.mem_append.mp hx with hx | hx
    · exact foldl_append_all m _ (fun bk => getD_all hband bk) bks [] (by simp) x hx
    · rcases List.mem_append.mp hx with hx | hx
      · revert hx
        split
        · intro hx
          exact getD_all hpfx _ x hx
        · intro hx; simp at hx
      · simpa using hx

theorem add_step3_hit (s : NewsEngine) (t2 d2 src2 m : String) (st : StoredItem)
    (h2 : pyStrip t2.data = t2.data) (h4 : pyStrip d2.data = d2.data)
    (h6 : t2 ≠ "") (h8 : normalize_title t2 ≠ "") (h13 : simhash_title64 t2 ≠ 0)
    (Hsha : alFind? s.idx_by_title_sha (sha1hex (normalize_title t2)) = none)
    (Hcand : gatherCandidates s (simhash_bands (simhash_title64 t2) simhash_bands_n)
        (title_pfx_key t2 title_pfx_k) (bow_signature t2) = [m])
    (Hraw : alFind? s.raw_items m = some st)
    (Hdate : dates_close (ymd_from_ddmmyyyy d2) (ymd_from_ddmmyyyy st.item.date)
        cross_days = true)
    (Hexsim : st.simhashCache.getD 0 ≠ 0)
    (Hhd : hamming_dist64 (simhash_title64 t2) (st.simhashCache.getD 0)
        ≤ simhash_hamming_threshold)
    (HngJ : qLe (qDiv 72 100) (jaccard (pySet (tokens_strong t2))
        (pySet (tokens_strong st.item.title))) = true) :
    (add_or_update_result s (obsT t2 d2 src2)).raw_items.map Prod.fst
        = s.raw_items.map Prod.fst
    ∧ (add_or_update_result s (obsT t2 d2 src2)).duplicate_count
        = s.duplicate_count + 1 := by
  have Hdec : decide (hamming_dist64 (simhash_title64 t2) (st.simhashCache.getD 0)
      ≤ simhash_hamming_threshold) = true := decide_eq_true Hhd
  have Hlt : decide (hamming_dist64 (simhash_title64 t2) (st.simhashCache.getD 0)
      < 999) = true := by
    have h9 := Hhd
    simp only [simhash_hamming_threshold] at h9
    exact decide_eq_true (by omega)
  have HrawSome : (alFind? s.raw_items m).isSome = true := by rw [Hraw]; rfl
  simp only [add_or_update_result, obsT, h2, h4, h6, h8, h13, charsToStr_data,
    strip_empty, pyStrip_nil, charsToStr_nil', normalize_url_empty_s, sha1hex_ne,
    title_key_ne, Hsha, Hcand, step3Best, List.foldl_cons, List.foldl_nil, Hraw,
    Hdate, Hexsim, Hdec, Hlt, HngJ, Option.none_orElse, Option.some_orElse,
    ne_eq, not_false_iff, not_true, if_true, if_false, ite_self,
    Bool.not_true, Bool.true_and, Bool.and_true, Bool.true_or, Bool.or_true,
    Bool.false_and, Bool.false_or, Bool.or_false, Bool.and_false,
    Bool.false_eq_true, decide_True, decide_False,
    Option.getD_some, not_false_eq_true, ite_true, ite_false]
  exact ⟨alSet_map_fst _ _ _ HrawSome, trivial⟩

theorem foldl_add_mod2_le (x : Nat) :
    ∀ (l : List Nat) (c : Nat),
      l.foldl (fun c i => c + (x >>> i) % 2) c ≤ c + l.length := by
  intro l
  induction l with
  | nil => intro c; simp
  | cons h t ih =>
    intro c
    simp only [List.foldl_cons, List.length_cons]
    have h2 : (x >>> h) % 2 ≤ 1 := by omega
    have h3 := ih (c + (x >>> h) % 2)
    omega

theorem hamming_dist64_le (a b : Nat) : hamming_dist64 a b ≤ 64 := by
  have h := foldl_add_mod2_le (Nat.xor a b) (List.range 64) 0
  simpa [hamming_dist64] using h

/-- The prefix-key variant of the step-3 merge: the third acceptance branch
(`prefix_match and (trunc_ok or ng_j >= 0.70)`, lines 1435–1436) fires on an
equal non-empty title-prefix key together with token Jaccard ≥ 0.70,
irrespective of the Hamming distance. -/
theorem add_step3_hit_pfx (s : NewsEngine) (t2 d2 src2 m : String) (st : StoredItem)
    (h2 : pyStrip t2.data = t2.data) (h4 : pyStrip d2.data = d2.data)
    (h6 : t2 ≠ "") (h8 : normalize_title t2 ≠ "") (h13 : simhash_title64 t2 ≠ 0)
    (Hsha : alFind? s.idx_by_title_sha (sha1hex (normalize_title t2)) = none)
    (Hcand : gatherCandidates s (simhash_bands (simhash_title64 t2) simhash_bands_n)
        (title_pfx_key t2 title_pfx_k) (bow_signature t2) = [m])
    (Hraw : alFind? s.raw_items m = some st)
    (Hdate : dates_close (ymd_from_ddmmyyyy d2) (ymd_from_ddmmyyyy st.item.date)
        cross_days = true)
    (Hexsim : st.simhashCache.getD 0 ≠ 0)
    (Hextne : st.item.title ≠ "")
    (Hpfxeq : title_pfx_key st.item.title title_pfx_k = title_pfx_key t2 title_pfx_k)
    (Hpfxne : title_pfx_key t2 title_pfx_k ≠ "")
    (HngJ : qLe (qDiv 70 100) (jaccard (pySet (tokens_strong t2))
        (pySet (tokens_strong st.item.title))) = true) :
    (add_or_update_result s (obsT t2 d2 src2)).raw_items.map Prod.fst
        = s.raw_items.map Prod.fst
    ∧ (add_or_update_result s (obsT t2 d2 src2)).duplicate_count
        = s.duplicate_count + 1 := by
  have Hlt : decide (hamming_dist64 (simhash_title64 t2) (st.simhashCache.getD 0)
      < 999) = true :=
    decide_eq_true (lt_of_le_of_lt (hamming_dist64_le _ _) (by norm_num))
  have HrawSome : (alFind? s.raw_items m).isSome = true := by rw [Hraw]; rfl
  simp only [add_or_update_result, obsT, h2, h4, h6, h8, h13, charsToStr_data,
    strip_empty, pyStrip_nil, charsToStr_nil', normalize_url_empty_s, sha1hex_ne,
    title_key_ne, Hsha, Hcand, step3Best, List.foldl_cons, List.foldl_nil, Hraw,
    Hdate, Hexsim, Hextne, Hpfxeq, Hpfxne, Hlt, HngJ,
    Option.none_orElse, Option.some_orElse,
    ne_eq, not_false_iff, not_true, if_true, if_false, ite_self,
    Bool.not_true, Bool.true_and, Bool.and_true, Bool.true_or, Bool.or_true,
    Bool.false_and, Bool.false_or, Bool.or_false, Bool.and_false,
    Bool.false_eq_true, decide_True, decide_False,
    Option.getD_some, not_false_eq_true, ite_true, ite_false]
  exact ⟨alSet_map_fst _ _ _ HrawSome, trivial⟩

/-- C5 amended: a reordered title (same strong-token multiset) shares the
bag-of-words signature, so the existing record is gathered as a step-3
candidate, and a permutation keeps the token-set Jaccard at 1.  With dates
aligned the second observation merges into the first record (one canonical
record, `duplicate_count = 1`) whenever the two titles share the 4-run
title-prefix key — the prefix acceptance branch needs only token Jaccard
≥ 0.70 and holds at any SimHash distance — or the SimHash fingerprints of
the raw titles are within the Hamming threshold of 8.  A reordering that
both changes the prefix key and moves the fingerprints beyond the
threshold can fail every acceptance branch (see the counterexample). -/
theorem C5_bow_match (t1 t2 d1 d2 src1 src2 : String)
    (h1 : pyStrip t1.data = t1.data) (h2 : pyStrip t2.data = t2.data)
    (h3 : pyStrip d1.data = d1.data) (h4 : pyStrip d2.data = d2.data)
    (h5 : t1 ≠ "") (h6 : t2 ≠ "")
    (h7 : normalize_title t1 ≠ "") (h8 : normalize_title t2 ≠ "")
    (h9 : normalize_title t2 ≠ normalize_title t1)
    (h10 : (tokens_strong t2).Perm (tokens_strong t1))
    (h11 : tokens_strong t1 ≠ [])
    (h12 : simhash_title64 t1 ≠ 0) (h13 : simhash_title64 t2 ≠ 0)
    (h14 : (title_pfx_key t2 title_pfx_k = title_pfx_key t1 title_pfx_k
            ∧ title_pfx_key t1 title_pfx_k ≠ "")
        ∨ hamming_dist64 (simhash_title64 t2) (simhash_title64 t1)
            ≤ simhash_hamming_threshold)
    (h15 : dates_close (ymd_from_ddmmyyyy d2) (ymd_from_ddmmyyyy d1) cross_days = true)
    (h16 : bow_signature t1 ≠ "") :
    ((add_or_update_result (add_or_update_result emptyNewsEngine (obsT t1 d1 src1))
        (obsT t2 d2 src2)).raw_items.map Prod.fst).length = 1
    ∧ (add_or_update_result (add_or_update_result emptyNewsEngine (obsT t1 d1 src1))
        (obsT t2 d2 src2)).duplicate_count = 1 := by
  rw [add_empty]
  have hraw := createT_raw t1 d1 src1 h1 h3 h5 h7 h12
  have hsha := createT_sha t1 d1 src1 h1 h3 h5 h7
  have hbow := createT_bow t1 d1 src1 h1 h3 h5 h7 h16
  have hband := createT_band_all t1 d1 src1 h1 h3 h5 h7 h12
  have hpfx := createT_pfx_all t1 d1 src1 h1 h3 h5 h7
  have Hsha : alFind? (createFromEmpty (obsT t1 d1 src1)).idx_by_title_sha
      (sha1hex (normalize_title t2)) = none := by
    rw [hsha]
    exact alFind?_singleton_ne _ (sha1hex_ne_of_ne h9.symm)
  have hbow2 : bow_signature t2 = bow_signature t1 := bow_signature_perm h10
  have Hcand : gatherCandidates (createFromEmpty (obsT t1 d1 src1))
      (simhash_bands (simhash_title64 t2) simhash_bands_n)
      (title_pfx_key t2 title_pfx_k) (bow_signature t2) = [masterT t1 d1 src1] := by
    apply gatherT _ _ _ _ _ hband hpfx
    · rw [hbow2, hbow]
      exact alFind?_cons_self _ _ _
    · rw [hbow2]; exact h16
  have Hraw : alFind? (createFromEmpty (obsT t1 d1 src1)).raw_items (masterT t1 d1 src1)
      = some (storedT t1 d1 src1) := by
    rw [hraw]
    exact alFind?_cons_self _ _ _
  have hst_cache : (storedT t1 d1 src1).simhashCache.getD 0 = simhash_title64 t1 := by
    simp only [storedT, Option.getD_some]
  have hst_date : (storedT t1 d1 src1).item.date = d1 := by
    simp only [storedT, obsT]
  have Hdate : dates_close (ymd_from_ddmmyyyy d2)
      (ymd_from_ddmmyyyy (storedT t1 d1 src1).item.date) cross_days = true := by
    rw [hst_date]; exact h15
  have Hexsim : (storedT t1 d1 src1).simhashCache.getD 0 ≠ 0 := by
    rw [hst_cache]; exact h12
  have ht2ne : tokens_strong t2 ≠ [] := by
    intro hc
    rw [hc] at h10
    exact h11 h10.symm.eq_nil
  have hst_title : (storedT t1 d1 src1).item.title = t1 := by
    simp only [storedT, obsT]
  have hmem : ∀ x, x ∈ pySet (tokens_strong t2) ↔ x ∈ pySet (tokens_strong t1) := by
    intro x
    rw [mem_pySet, mem_pySet]
    exact h10.mem_iff
  have H : (add_or_update_result (createFromEmpty (obsT t1 d1 src1))
        (obsT t2 d2 src2)).raw_items.map Prod.fst
        = (createFromEmpty (obsT t1 d1 src1)).raw_items.map Prod.fst
      ∧ (add_or_update_result (createFromEmpty (obsT t1 d1 src1))
        (obsT t2 d2 src2)).duplicate_count
        = (createFromEmpty (obsT t1 d1 src1)).duplicate_count + 1 := by
    rcases h14 with ⟨hpe, hpn⟩ | hhd
    · have Hextne : (storedT t1 d1 src1).item.title ≠ "" := by
        rw [hst_title]; exact h5
      have Hpfxeq : title_pfx_key (storedT t1 d1 src1).item.title title_pfx_k
          = title_pfx_key t2 title_pfx_k := by
        rw [hst_title]; exact hpe.symm
      have Hpfxne : title_pfx_key t2 title_pfx_k ≠ "" := by
        rw [hpe]; exact hpn
      have HngJ : qLe (qDiv 70 100) (jaccard (pySet (tokens_strong t2))
          (pySet (tokens_strong (storedT t1 d1 src1).item.title))) = true := by
        rw [hst_title]
        apply jaccard_same_mem_ge hmem (pySet_ne_nil ht2ne) (pySet_ne_nil h11)
        · decide
        · decide
        · decide
      exact add_step3_hit_pfx (createFromEmpty (obsT t1 d1 src1)) t2 d2 src2
        (masterT t1 d1 src1) (storedT t1 d1 src1) h2 h4 h6 h8 h13 Hsha Hcand Hraw
        Hdate Hexsim Hextne Hpfxeq Hpfxne HngJ
    · have Hhd : hamming_dist64 (simhash_title64 t2)
          ((storedT t1 d1 src1).simhashCache.getD 0) ≤ simhash_hamming_threshold := by
        rw [hst_cache]; exact hhd
      have HngJ : qLe (qDiv 72 100) (jaccard (pySet (tokens_strong t2))
          (pySet (tokens_strong (storedT t1 d1 src1).item.title))) = true := by
        rw [hst_title]
        apply jaccard_same_mem_ge hmem (pySet_ne_nil ht2ne) (pySet_ne_nil h11)
        · decide
        · decide
        · decide
      exact add_step3_hit (createFromEmpty (obsT t1 d1 src1)) t2 d2 src2
        (masterT t1 d1 src1) (storedT t1 d1 src1) h2 h4 h6 h8 h13 Hsha Hcand Hraw
        Hdate Hexsim Hhd HngJ
  constructor
  · rw [H.1, hraw]
    rfl
  · rw [H.2, createT_dup]

def tW1 : String := "abc def ghi jkl mno pqr"

def tW2 : String := "abc def ghi jkl pqr mno"

theorem simhash_tW1 : simhash_title64 tW1 = 0xd98b96da76e81657 := by decide

theorem simhash_tW2 : simhash_title64 tW2 = 0x7b8f96da66a0577f := by decide

/-- C5 witness: the amended theorem applied to a reordering of the last two
of six words — the 4-run prefix key `abc-def-ghi-jkl` is unchanged, so the
pair merges through the prefix acceptance branch even though its SimHash
fingerprints are 11 bits apart (beyond the threshold of 8). -/
theorem C5_bow_match_witness :
    hamming_dist64 (simhash_title64 tW2) (simhash_title64 tW1) = 11
    ∧ ((add_or_update_result (add_or_update_result emptyNewsEngine
        (obsT tW1 "01-01-2024" "gnews")) (obsT tW2 "01-01-2024" "newsapi")).raw_items.map
          Prod.fst).length = 1
    ∧ (add_or_update_result (add_or_update_result emptyNewsEngine
        (obsT tW1 "01-01-2024" "gnews"))
          (obsT tW2 "01-01-2024" "newsapi")).duplicate_count = 1 := by
  have H := C5_bow_match tW1 tW2 "01-01-2024" "01-01-2024" "gnews" "newsapi"
    (by decide) (by decide) (by decide) (by decide) (by decide) (by decide)
    (by decide) (by decide) (by decide) (by decide) (by decide)
    (by rw [simhash_tW1]; decide) (by rw [simhash_tW2]; decide)
    (Or.inl (by decide)) (by decide) (by decide)
  exact ⟨by rw [simhash_tW1, simhash_tW2]; decide, H.1, H.2⟩

/-- C4 witness: the amended theorem applied to the same URL-only
observation twice. -/
theorem C4_url_match_witness :
    normalize_url (charsToStr (pyStrip obsUrlOnly.url.data)) ≠ ""
    ∧ ((add_or_update_result (add_or_update_result emptyNewsEngine obsUrlOnly)
        obsUrlOnly).raw_items.map Prod.fst
        = [normalize_url (charsToStr (pyStrip obsUrlOnly.url.data))])
    ∧ (add_or_update_result (add_or_update_result emptyNewsEngine obsUrlOnly)
        obsUrlOnly).duplicate_count = 1 := by
  have H := C4_url_match obsUrlOnly obsUrlOnly rfl (by decide)
  exact ⟨by decide, H.1, H.2⟩

/-- C5 counterexample: `"abc def"` and `"def abc"` have the same
strong-token multiset and identical dates, yet the second insert creates a
second canonical record — the reordering changes the title-prefix key
(`abc-def` vs `def-abc`, so the prefix branch cannot fire), the SimHash
fingerprints are 22 bits apart (first branch), and the shingle Jaccard is
1/3 (second branch), so step 3 rejects the bag-of-words candidate and no
other match step fires. -/
theorem C5_counterexample :
    (tokens_strong "def abc").Perm (tokens_strong "abc def")
    ∧ title_pfx_key "def abc" title_pfx_k ≠ title_pfx_key "abc def" title_pfx_k
    ∧ dates_close (ymd_from_ddmmyyyy "01-01-2024") (ymd_from_ddmmyyyy "01-01-2024")
        cross_days = true
    ∧ ((add_or_update_result (add_or_update_result emptyNewsEngine
        (obsT "abc def" "01-01-2024" "gnews")) (obsT "def abc" "01-01-2024"
          "newsapi")).raw_items.map Prod.fst).length = 2
    ∧ (add_or_update_result (add_or_update_result emptyNewsEngine
        (obsT "abc def" "01-01-2024" "gnews"))
          (obsT "def abc" "01-01-2024" "newsapi")).duplicate_count = 0 := by decide

/-- C4 counterexample: two observations with empty URLs have equal (empty)
normalized URLs, but the second does not merge into the first — with
unrelated titles both match chains miss and two distinct canonical records
exist afterwards. -/
theorem C4_counterexample :
    normalize_url (charsToStr (pyStrip (obsT "abc def" "" "gnews").url.data))
      = normalize_url (charsToStr (pyStrip (obsT "xyz uvw" "" "newsapi").url.data))
    ∧ ((add_or_update_result (add_or_update_result emptyNewsEngine
        (obsT "abc def" "" "gnews")) (obsT "xyz uvw" "" "newsapi")).raw_items.map
          Prod.fst).length = 2
    ∧ (add_or_update_result (add_or_update_result emptyNewsEngine
        (obsT "abc def" "" "gnews"))
          (obsT "xyz uvw" "" "newsapi")).duplicate_count = 0 := by decide
